import Mathlib

/-!
Verification of the ansible-truenas collection's reconciler and transport
layer, shallowly embedded from the Python sources under plugins/.

Conventions of the embedding:
* Python dicts whose keys are field names become association lists
  `List (String × _)`; assignment `d[k] = v` is `dinsert` (replace or append).
* `None` becomes `Option.none`; a fallible Python computation becomes
  `Except String _`, the error string naming the Python exception.
* Middleware traffic is modelled as a trace `List MWCall` accumulated by each
  module's `run` function; the remote daemon's responses are inputs (oracles).
-/

namespace TrueNAS

/-- Python `str` conversion for `True`/`False` (as in `str(True) = "True"`). -/
def pyStrBool (b : Bool) : String := if b then "True" else "False"

/-- Python whitespace, as far as the strings of this code base go. -/
def pyIsSpace (c : Char) : Bool :=
  c == ' ' || c == '\t' || c == '\n' || c == '\r' || c == '\x0b' || c == '\x0c'

/-- Python `s.strip()`. -/
def pyStrip (s : String) : String :=
  ⟨((s.toList.dropWhile pyIsSpace).reverse.dropWhile pyIsSpace).reverse⟩

/-- Python `s.rstrip()`. -/
def pyRstrip (s : String) : String :=
  ⟨(s.toList.reverse.dropWhile pyIsSpace).reverse⟩

/-- Lower-case an ASCII letter. -/
def pyLowerChar (c : Char) : Char :=
  if 'A' ≤ c && c ≤ 'Z' then Char.ofNat (c.toNat + 32) else c

/-- Python `s.lower()` (ASCII, which covers every string compared here). -/
def pyLower (s : String) : String := ⟨s.toList.map pyLowerChar⟩

/-- Python `s.startswith(pre)`. -/
def strStartsWith (s pre : String) : Bool := pre.toList.isPrefixOf s.toList

/-- Whether `suf` is a suffix of `s` (Python `s.endswith(suf)`). -/
def strEndsWith (s suf : String) : Bool := suf.toList.isSuffixOf s.toList

/-- Whether `needle` occurs as a contiguous sublist of `hay`. -/
def listSub (needle : List Char) : List Char → Bool
  | [] => needle.isEmpty
  | c :: t => needle.isPrefixOf (c :: t) || listSub needle t

/-- Python substring test `needle in hay` on strings. -/
def pyInStr (needle hay : String) : Bool :=
  needle == "" || listSub needle.toList hay.toList

/-- Split a character list at the first occurrence of (non-empty) `sep`:
the part before it and the part after it. -/
def findSplit (sep : List Char) : List Char → Option (List Char × List Char)
  | [] => none
  | c :: t =>
      if sep.isPrefixOf (c :: t) then some ([], (c :: t).drop sep.length)
      else (findSplit sep t).map (fun pq => (c :: pq.1, pq.2))

/-- Python `s.split(sep, 1)`: split on the first occurrence of `sep` only. -/
def pySplitOnce (sep s : String) : List String :=
  match findSplit sep.toList s.toList with
  | none => [s]
  | some (pre, post) => [⟨pre⟩, ⟨post⟩]

/-- Dict assignment `d[k] = v` on an association list: replace the value of an
existing key, otherwise append the pair (Python dicts keep insertion order). -/
def dinsert {α : Type} (k : String) (v : α) (d : List (String × α)) :
    List (String × α) :=
  if d.any (fun kv => kv.1 == k) then
    d.map (fun kv => if kv.1 == k then (k, v) else kv)
  else d ++ [(k, v)]

/-- The keys of an association list (a Python dict's key view). -/
def dkeys {α : Type} (d : List (String × α)) : List String := d.map Prod.fst

/-- Dict lookup `d[k]` on an association list (keys are unique under
`dinsert`, so the first hit is the value). -/
def dlookup {α : Type} (k : String) : List (String × α) → Option α
  | [] => none
  | kv :: t => if kv.1 == k then some kv.2 else dlookup k t

/-- Python `set(a) == set(b)` for lists of strings: mutual membership. -/
def pySetEq (a b : List String) : Bool :=
  a.all (fun x => b.contains x) && b.all (fun x => a.contains x)

/-- Python `set(a) == set(b)` for lists of integers. -/
def pySetEqInt (a b : List Int) : Bool :=
  a.all (fun x => b.contains x) && b.all (fun x => a.contains x)

/-! ## Middleware calls and traces -/

/-- One request sent through the middleware layer: the remote method name and
whether it was issued with `mw.job` (long-running job) or `mw.call`. -/
structure MWCall where
  method : String
  isJob : Bool
  deriving Repr, DecidableEq

/-- `mw.call name` -/
def callOf (method : String) : MWCall := ⟨method, false⟩

/-- `mw.job name` -/
def jobOf (method : String) : MWCall := ⟨method, true⟩

/-- A middleware request is mutating when it is a job, or when its method is a
create/update/delete or a jail start/stop.  (Query/lookup methods such as
`*.query`, `jail.fstab` with action LIST, `jail.get_iocroot`,
`system.version` are not mutating.) -/
def mutatingCall (c : MWCall) : Bool :=
  c.isJob
  || strEndsWith c.method ".create"
  || strEndsWith c.method ".update"
  || strEndsWith c.method ".delete"
  || c.method == "jail.start"
  || c.method == "jail.stop"

/-- Outcome of one Ansible module invocation: a normal `exit_json` carrying the
`changed` flag and `msg`, a `fail_json`, or an uncaught Python exception. -/
inductive Outcome where
  | exited (changed : Bool) (msg : String)
  | failed (msg : String)
  | pyError (msg : String)
  deriving Repr, DecidableEq

/-! ## Transport layer: exceptions.py, client.py, midclt.py -/

/-- plugins/module_utils/exceptions.py `MethodNotFoundError(method, errmsg)`. -/
structure MethodNotFoundError where
  method : String
  errmsg : String
  deriving Repr, DecidableEq

/-- The error taxonomy surfacing from a transport `call`: either the distinct
method-not-found kind, or a generic `Exception`. -/
inductive TransportError where
  | methodNotFound (e : MethodNotFoundError)
  | generic (msg : String)
  deriving Repr, DecidableEq

/-- Whether a transport error is the distinct method-not-found kind. -/
def TransportError.isMethodNotFound : TransportError → Bool
  | .methodNotFound _ => true
  | .generic _ => false

/-- What the persistent middlewared client connection reports for one remote
invocation (input oracle for `MiddlewareClient.call`): success with a value,
              the daemon's own MethodNotFoundError, or some other exception. -/
inductive RemoteResult where
  | success (v : String)
  | methodNotFound (detail : String)
  | failure (detail : String)
  deriving Repr, DecidableEq

/-- plugins/module_utils/client.py `MiddlewareClient.call`: forwards to the
persistent client; catches the daemon's MethodNotFoundError and re-raises it
as the collection's own `MethodNotFoundError(func, str(e))`; re-raises every
other exception unchanged. -/
def MiddlewareClient.call (func : String) (r : RemoteResult) :
    Except TransportError String :=
  match r with
  | .success v => .ok v
  | .methodNotFound detail => .error (.methodNotFound ⟨func, detail⟩)
  | .failure detail => .error (.generic detail)

/-- Result of running the `midclt` subprocess (input oracle for `Midclt.call`):
either stdout from a zero exit, or a nonzero exit status with output.  A
nonexistent remote method makes `midclt` exit nonzero. -/
inductive SubprocessResult where
  | ok (stdout : String)
  | err (returncode : Int) (stdout : String)
  deriving Repr, DecidableEq

/-- plugins/module_utils/midclt.py `Midclt._to_json`: strip the output, turn
the literal strings `True`/`False` into lowercase, then parse as JSON.  The
JSON parser itself is the environment's `parse` (none = `JSONDecodeError`). -/
def Midclt.to_json (parse : String → Option String) (msg : String) :
    Option String :=
  let m := pyStrip msg
  let m := if m == "True" || m == "False" then pyLower m else m
  parse m

/-- plugins/module_utils/midclt.py `Midclt.call`: run `midclt call`.  A nonzero
exit raises a generic `Exception` naming the exit status; `output='str'`
returns stdout; `output='json'` parses stdout, raising a generic `Exception`
on a decode failure; any other `output` value raises a generic `Exception`.
No path raises `MethodNotFoundError`. -/
def Midclt.call (parse : String → Option String) (sub : SubprocessResult)
    (output : String) : Except TransportError String :=
  match sub with
  | .err rc _out =>
      .error (.generic s!"midclt exited with status {rc}")
  | .ok out =>
      if output == "str" then
        .ok (pyRstrip out)
      else if output == "json" then
        match Midclt.to_json parse out with
        | none => .error (.generic "Can't parse midclt output")
        | some v => .ok v
      else
        .error (.generic s!"Invalid output format {output}")

/-! ## Middleware facade: middleware.py -/

/-- The two transport implementations the facade can pick. -/
inductive TransportKind where
  | midclt
  | client
  deriving Repr, DecidableEq

/-- plugins/module_utils/middleware.py `MiddleWare._pick_method`: read the
`middleware_method` environment variable (default `'midclt'` when unset),
return the matching transport class, and raise
`Exception(f"Unknown middleware method {method}")` on any other value.
`MiddleWare.client()` invokes this before any call or job is forwarded. -/
def pick_method (envvar : Option String) : Except String TransportKind :=
  let method := envvar.getD "midclt"
  if method == "midclt" then .ok .midclt
  else if method == "client" then .ok .client
  else .error s!"Unknown middleware method {method}"

/-! ## Version / dialect resolver: setup.py -/

/-- A Python value as it flows through `get_tn_version`: `full_version` is the
result of `.split("-", 1)` and is therefore a list, while `re.match` demands a
string. -/
inductive PyV where
  | str (s : String)
  | list (l : List String)
  deriving Repr, DecidableEq

/-- Is a character in Python's `\w` class (ASCII letters, digits, `_`)? -/
def isWordChar (c : Char) : Bool :=
  c.isAlpha || c.isDigit || c == '_'

/-- Longest run of `\w` characters at the head of a character list, with the
remainder. -/
def wordRun (cs : List Char) : List Char × List Char :=
  (cs.takeWhile isWordChar, cs.dropWhile isWordChar)

/-- Does a character list start with a decimal digit? -/
def headDigit : List Char → Bool
  | [] => false
  | c :: _ => c.isDigit

/-- `re.match(r'^(?:(\w+)-)(?:(\w+)-)?(\d.*)', s)` for a string `s` (single
line, so `.` never meets a newline): group 1 is a `\w+` run followed by `-`;
group 2 is optionally another `\w+` run followed by `-`, kept only when the
remainder starts with a digit (otherwise the engine backtracks and drops the
optional group); group 3 is the digit-leading remainder. -/
def reMatchVersion (s : String) : Option (String × Option String × String) :=
  let (g1, rest1) := wordRun s.toList
  match rest1 with
  | '-' :: rest2 =>
      if g1 == [] then none
      else
        let (g2, rest2a) := wordRun rest2
        let withG2 : Option (String × Option String × String) :=
          match rest2a with
          | '-' :: rest3 =>
              if g2 != [] && headDigit rest3 then
                some (⟨g1⟩, some ⟨g2⟩, ⟨rest3⟩)
              else none
          | _ => none
        match withG2 with
        | some r => some r
        | none => if headDigit rest2 then some (⟨g1⟩, none, ⟨rest2⟩) else none
  | _ => none

/-- `re.match` as invoked by the source: applying it to a non-string value
raises `TypeError: expected string or bytes-like object`. -/
def re_match_version (v : PyV) :
    Except String (Option (String × Option String × String)) :=
  match v with
  | .str s => .ok (reMatchVersion s)
  | .list _ => .error "TypeError: expected string or bytes-like object"

/-- The daemon responses `get_tn_version` consumes (in source order):
`system.product_type`, `system.version`, and — only when the product type is a
substring of "CORE" — `system.product_name`. -/
structure TNEnv where
  product_type_resp : String
  version_resp : String
  product_name_resp : String
  deriving Repr, DecidableEq

/-- The record `get_tn_version` is meant to build.  The `version` field keeps
the string handed to `packaging.version.parse` (the parse itself is outside
this repository). -/
structure TnVersion where
  name : Option String
  type_ : Option String
  version : PyV
  deriving Repr, DecidableEq

/-- plugins/module_utils/setup.py `get_tn_version` (memoization aside): query
`system.product_type`; set `full_version` to
`mw.call("system.version", output='str').split("-", 1)` — a Python **list**;
query `system.product_name` when `product_type in ("CORE")` (a substring test
against the string `"CORE"`, not tuple membership); then apply `re.match` to
`full_version`.  Returns the middleware trace together with the result. -/
def get_tn_version (env : TNEnv) : List MWCall × Except String TnVersion :=
  let product_type := env.product_type_resp
  let full_version : PyV := .list (pySplitOnce "-" env.version_resp)
  let core : Bool := pyInStr product_type "CORE"
  let trace :=
    [callOf "system.product_type", callOf "system.version"]
      ++ (if core then [callOf "system.product_name"] else [])
  let product_name : Option String :=
    if core then some env.product_name_resp else none
  match re_match_version full_version with
  | .error e => (trace, .error e)
  | .ok none =>
      (trace, .ok { name := product_name, type_ := some product_type,
                    version := full_version })
  | .ok (some (g1, _g2, g3)) =>
      -- product_type already holds the (non-None) daemon response, so the
      -- `if product_type is None and match[2] != ""` branch never fires here.
      let name := if product_name.isNone then some g1 else product_name
      (trace, .ok { name := name, type_ := some product_type,
                    version := .str g3 })

/-! ## filesystem.py: ZFS dataset reconciler -/

/-- A value carried in the filesystem module's parameter dict / update-arg
dict: the str/int property values, booleans (`sparse`, `force_size`), and the
two user-property lists. -/
inductive PVal where
  | s (v : String)
  | i (v : Int)
  | b (v : Bool)
  | userProps (v : List (String × String))
  | userPropsUpdate (v : List (String × Option String × Option Bool))
  deriving Repr, DecidableEq

/-- Python `str()` of a parameter value. -/
def PVal.pyStr : PVal → String
  | .s v => v
  | .i v => toString v
  | .b v => pyStrBool v
  | .userProps _ => "<list>"
  | .userPropsUpdate _ => "<list>"

/-- The known lower-case enumeration values of `compare_prop`. -/
def lower_enums : List String :=
  ["on", "off", "inherit", "standard", "always", "disabled", "visible",
   "hidden", "lz4", "zstd", "nfsv4", "posix", "restricted", "passthrough",
   "discard", "verify"]

/-- filesystem.py `compare_prop(prop_name, desired_val, current_str)` (the
`prop_name` argument is unused by the source).  `current_str` is the
`rawvalue` and may be `None`: the source then evaluates
`current_str.lower()`, raising `AttributeError` (the `desired_val` is never
`None` at the call site).  Returns whether the two are effectively the same. -/
def compare_prop (desired : PVal) (current : Option String) :
    Except String Bool :=
  let desired_str := pyStrip desired.pyStr
  match current with
  | none => .error "AttributeError: NoneType object has no attribute lower"
  | some c =>
      if lower_enums.contains (pyLower desired_str)
          || lower_enums.contains (pyLower c) then
        .ok (pyLower desired_str == pyLower c)
      else
        .ok (desired_str == c)

/-- filesystem.py `same_value_bool(desired_bool, current_str)`: compare a bool
parameter against a rawvalue that may be "true"/"false"/"on"/"off"/"1"/"0". -/
def same_value_bool (desired : Bool) (current : Option String) : Bool :=
  let d_str := if desired then "true" else "false"
  let c_str := pyStrip (pyLower (current.getD ""))
  let c_str :=
    if c_str == "on" || c_str == "1" then "true"
    else if c_str == "off" || c_str == "0" then "false"
    else c_str
  d_str == c_str

/-- The dataset entry returned by `pool.dataset.query`, as the module reads
it: its `type` and, per property name, the optional `rawvalue` string. -/
structure DsInfo where
  dstype : String
  raw : String → Option String

/-- filesystem.py `prop_rawvalue(dataset_entry, prop_name)`: fetch the
property's `rawvalue`, `str()`-ed and stripped, or `None`. -/
def prop_rawvalue (ds : DsInfo) (prop : String) : Option String :=
  (ds.raw prop).map pyStrip

/-- The `updatable_props` list of filesystem.py `build_update_args`. -/
def updatable_props : List String :=
  ["comments", "sync", "snapdev", "compression", "atime", "exec",
   "managedby", "quota", "quota_warning", "quota_critical", "refquota",
   "refquota_warning", "refquota_critical", "reservation", "refreservation",
   "special_small_block_size", "copies", "snapdir", "deduplication",
   "checksum", "readonly", "recordsize", "aclmode", "acltype", "xattr"]

/-- The filesystem module's parameters after Ansible argument parsing.  The
25 generic properties are accessed through `props` exactly as the source
does via `params.get(prop)` in its loop over `updatable_props`. -/
structure FsParams where
  name : String
  state : String
  dstype : String
  volsize : Option Int
  volblocksize : Option String
  sparse : Option Bool
  force_size : Option Bool
  create_ancestors : Option Bool
  props : String → Option PVal
  user_properties : List (String × String)
  user_properties_update : List (String × Option String × Option Bool)

/-- The loop over `updatable_props` in `build_update_args`: for each property
the caller supplied, keep it only when `compare_prop` says it differs from
the current `rawvalue`. -/
def update_props_loop (p : FsParams) (ds : DsInfo) :
    List String → List (String × PVal) → Except String (List (String × PVal))
  | [], acc => .ok acc
  | prop :: rest, acc =>
      match p.props prop with
      | none => update_props_loop p ds rest acc
      | some v =>
          match compare_prop v (prop_rawvalue ds prop) with
          | .error e => .error e
          | .ok same =>
              if same then update_props_loop p ds rest acc
              else update_props_loop p ds rest (dinsert prop v acc)

/-- The `if ds_type == "VOLUME"` section of filesystem.py `build_update_args`:
`volsize` by string comparison against the rawvalue; `sparse` via
`same_value_bool`; `force_size` always included when non-None. -/
def volume_update_args (p : FsParams) (ds : DsInfo) : List (String × PVal) :=
  let args : List (String × PVal) := []
  let args :=
    match p.volsize with
    | none => args
    | some vs =>
        if some (toString vs) != prop_rawvalue ds "volsize" then
          dinsert "volsize" (.i vs) args
        else args
  let args :=
    match p.sparse with
    | none => args
    | some sp =>
        if !same_value_bool sp (prop_rawvalue ds "sparse") then
          dinsert "sparse" (.b sp) args
        else args
  let args :=
    match p.force_size with
    | none => args
    | some fs => dinsert "force_size" (.b fs) args
  args

/-- filesystem.py `build_update_args(params, existing_ds)`: the VOLUME-only
section first, then the `updatable_props` loop, then the `user_properties`
bulk list and the `user_properties_update` list.  Note that `volblocksize`
is consulted nowhere. -/
def build_update_args (p : FsParams) (ds : DsInfo) :
    Except String (List (String × PVal)) :=
  let args : List (String × PVal) :=
    if ds.dstype == "VOLUME" then volume_update_args p ds else []
  match update_props_loop p ds updatable_props args with
  | .error e => .error e
  | .ok args =>
      let args :=
        if p.user_properties != [] then
          dinsert "user_properties" (.userProps p.user_properties) args
        else args
      let ups := p.user_properties_update.map (fun item =>
        let key := item.1
        if item.2.2 == some true then (key, (none : Option String), some true)
        else match item.2.1 with
          | some v => (key, some v, none)
          | none => (key, none, none))
      let args :=
        if p.user_properties_update != [] && ups != [] then
          dinsert "user_properties_update" (.userPropsUpdate ups) args
        else args
      .ok args

/-- The `create_props` list of filesystem.py `build_create_args` (the same
property names as `updatable_props`). -/
def create_props : List String := updatable_props

/-- The loop over `create_props` in `build_create_args`: include every
property the caller supplied. -/
def create_props_loop (p : FsParams) :
    List String → List (String × PVal) → List (String × PVal)
  | [], acc => acc
  | prop :: rest, acc =>
      match p.props prop with
      | none => create_props_loop p rest acc
      | some v => create_props_loop p rest (dinsert prop v acc)

/-- filesystem.py `build_create_args(params, module)`: start from
`name`/`type`; include `create_ancestors` when non-None; for a VOLUME require
a truthy `volsize` (`module.fail_json` otherwise — note `volsize=0` is falsy)
and include `volblocksize`/`sparse`/`force_size` when non-None; then include
every supplied property of `create_props` and a non-empty
`user_properties`. -/
def build_create_args (p : FsParams) :
    Except String (List (String × PVal)) :=
  let args : List (String × PVal) :=
    [("name", .s p.name), ("type", .s p.dstype)]
  let args :=
    match p.create_ancestors with
    | none => args
    | some ca => dinsert "create_ancestors" (.b ca) args
  match
    (if p.dstype == "VOLUME" then
      match p.volsize with
      | none => .error "volsize is required when creating a volume."
      | some vs =>
          if vs == 0 then .error "volsize is required when creating a volume."
          else
            let args := dinsert "volsize" (.i vs) args
            let args :=
              match p.volblocksize with
              | none => args
              | some vb => dinsert "volblocksize" (.s vb) args
            let args :=
              match p.sparse with
              | none => args
              | some sp => dinsert "sparse" (.b sp) args
            let args :=
              match p.force_size with
              | none => args
              | some fs => dinsert "force_size" (.b fs) args
            .ok args
    else .ok args : Except String (List (String × PVal))) with
  | .error e => .error e
  | .ok args =>
      let args := create_props_loop p create_props args
      let args :=
        if p.user_properties != [] then
          dinsert "user_properties" (.userProps p.user_properties) args
        else args
      .ok args

/-- filesystem.py `main`, after argument parsing: query the dataset by name,
then branch on state/existence, returning the middleware trace and the
module outcome.  The oracle `existing` is the query's answer. -/
def filesystem_run (p : FsParams) (check_mode : Bool)
    (existing : Option DsInfo) : List MWCall × Outcome :=
  let trace := [callOf "pool.dataset.query"]
  match existing with
  | none =>
      if p.state == "absent" then
        (trace, .exited false "Dataset is already absent.")
      else
        match build_create_args p with
        | .error e => (trace, .failed e)
        | .ok _create_args =>
            if check_mode then
              (trace, .exited true "Would create dataset.")
            else
              (trace ++ [callOf "pool.dataset.create"],
               .exited true "Created dataset.")
  | some ds =>
      if p.state == "absent" then
        if check_mode then
          (trace, .exited true "Would delete dataset.")
        else
          (trace ++ [callOf "pool.dataset.delete"],
           .exited true "Deleted dataset.")
      else
        match build_update_args p ds with
        | .error e => (trace, .pyError e)
        | .ok update_args =>
            if update_args == [] then
              (trace, .exited false "Dataset is up to date.")
            else if check_mode then
              (trace, .exited true "Would update dataset.")
            else
              (trace ++ [callOf "pool.dataset.update"],
               .exited true "Updated dataset.")

/-! ## group.py: group reconciler -/

/-- The group module's parameters (`non_unique` has argument-spec default
`False`, so it is never `None`). -/
structure GroupParams where
  gid : Option Int
  name : String
  state : String
  non_unique : Bool
  deriving Repr, DecidableEq

/-- The answer to `group.query [["group","=",name]]` the module consumes. -/
structure GroupInfo where
  id : Int
  gid : Int
  deriving Repr, DecidableEq

/-- group.py `main`, after argument parsing: look up the group by name, then
create / diff-and-update / delete, returning the middleware trace and the
outcome. -/
def group_run (p : GroupParams) (check_mode : Bool)
    (group_info : Option GroupInfo) : List MWCall × Outcome :=
  let trace := [callOf "group.query"]
  match group_info with
  | none =>
      if p.state == "present" then
        if check_mode then
          (trace, .exited true "Would have created group")
        else
          (trace ++ [callOf "group.create"], .exited true "created")
      else
        (trace, .exited false "")
  | some info =>
      if p.state == "present" then
        -- Build up arguments to pass to group.update.
        let arg : List (String × Int) :=
          match p.gid with
          | some g => if info.gid != g then [("gid", g)] else []
          | none => []
        if arg == [] then
          (trace, .exited false "")
        else if check_mode then
          (trace, .exited true "Would have updated group")
        else
          (trace ++ [callOf "group.update"], .exited true "updated")
      else
        if check_mode then
          (trace, .exited true "Would have deleted group {group}")
        else
          (trace ++ [callOf "group.delete"], .exited true "deleted")

/-! ## sharing_nfs.py: NFS export reconciler -/

/-- A value in the NFS modules' update-arg dict: a bool, a string, the `None`
used to clear a mutually exclusive field, or a list of strings. -/
inductive AVal where
  | b (v : Bool)
  | s (v : String)
  | null
  | strs (v : List String)
  deriving Repr, DecidableEq

/-- The sharing_nfs module's parameters common to both dialects. -/
structure NfsParams where
  name : Option String
  path : String
  state : String
  alldirs : Option Bool
  quiet : Option Bool
  enabled : Option Bool
  readonly : Option Bool
  maproot_user : Option String
  maproot_group : Option String
  mapall_user : Option String
  mapall_group : Option String
  networks : Option (List String)
  hosts : Option (List String)
  deriving Repr, DecidableEq

/-- One export as returned by `sharing.nfs.query`, with the fields the module
reads. -/
structure ExportInfo where
  id : Int
  comment : String
  alldirs : Bool
  quiet : Bool
  enabled : Bool
  readonly : Bool
  maproot_user : Option String
  maproot_group : Option String
  mapall_user : Option String
  mapall_group : Option String
  networks : List String
  hosts : List String
  paths : List String
  deriving Repr, DecidableEq

/-- The shape `if <param> is not None and <differs>: arg[<key>] = <value>`
repeated throughout the reconcilers' diff computations. -/
def optStage {β : Type} (key : String) (o : Option β) (differs : β → Bool)
    (mk : β → AVal) (arg : List (String × AVal)) : List (String × AVal) :=
  match o with
  | some v => if differs v then dinsert key (mk v) arg else arg
  | none => arg

/-- The shape of the map*-field updates in sharing_nfs.py: when the supplied
value differs, set it, and additionally clear (`None`) the mutually
exclusive other field when that one is currently set. -/
def mapStage (key otherKey : String) (o : Option String)
    (current otherCurrent : Option String) (arg : List (String × AVal)) :
    List (String × AVal) :=
  match o with
  | some u =>
      if current != some u then
        let arg := dinsert key (.s u) arg
        if otherCurrent.isSome then dinsert otherKey .null arg
        else arg
      else arg
  | none => arg

/-- The map*-field block shared verbatim by `NFS1.run` and `nfs2`: each of the
four fields is added when supplied and different, and setting one of a
mutually exclusive pair clears the other (`None`) when the other is
currently set. -/
def nfs_maps_arg (p : NfsParams) (e : ExportInfo)
    (arg : List (String × AVal)) : List (String × AVal) :=
  let arg := mapStage "maproot_user" "mapall_user" p.maproot_user
    e.maproot_user e.mapall_user arg
  let arg := mapStage "maproot_group" "mapall_group" p.maproot_group
    e.maproot_group e.mapall_group arg
  let arg := mapStage "mapall_user" "maproot_user" p.mapall_user
    e.mapall_user e.maproot_user arg
  let arg := mapStage "mapall_group" "maproot_group" p.mapall_group
    e.mapall_group e.maproot_group arg
  arg

/-- sharing_nfs.py `nfs2`, the update-arg (Diff) computation for an existing
export: comment, the four booleans, the map* block, then `networks` and
`hosts` under set equality. -/
def nfs2_update_arg (p : NfsParams) (e : ExportInfo) : List (String × AVal) :=
  let arg : List (String × AVal) := []
  let arg := optStage "comment" p.name (fun n => e.comment != n) .s arg
  let arg := optStage "alldirs" p.alldirs (fun v => e.alldirs != v) .b arg
  let arg := optStage "quiet" p.quiet (fun v => e.quiet != v) .b arg
  let arg := optStage "enabled" p.enabled (fun v => e.enabled != v) .b arg
  let arg := optStage "ro" p.readonly (fun v => e.readonly != v) .b arg
  let arg := nfs_maps_arg p e arg
  let arg :=
    optStage "networks" p.networks (fun ns => !pySetEq ns e.networks) .strs arg
  let arg :=
    optStage "hosts" p.hosts (fun hs => !pySetEq hs e.hosts) .strs arg
  arg

/-- sharing_nfs.py `NFS1.run`, the update-arg computation for an existing
export: like `nfs2_update_arg` but with no comment diff, with `paths`
compared as a set, and with `networks`/`hosts` as in nfs2. -/
def nfs1_update_arg (p : NfsParams) (paths : List String) (e : ExportInfo) :
    List (String × AVal) :=
  let arg : List (String × AVal) := []
  let arg := optStage "alldirs" p.alldirs (fun v => e.alldirs != v) .b arg
  let arg := optStage "quiet" p.quiet (fun v => e.quiet != v) .b arg
  let arg := optStage "enabled" p.enabled (fun v => e.enabled != v) .b arg
  let arg := optStage "ro" p.readonly (fun v => e.readonly != v) .b arg
  let arg := nfs_maps_arg p e arg
  let arg :=
    if !pySetEq paths e.paths then dinsert "paths" (.strs paths) arg else arg
  let arg :=
    optStage "networks" p.networks (fun ns => !pySetEq ns e.networks) .strs arg
  let arg :=
    optStage "hosts" p.hosts (fun hs => !pySetEq hs e.hosts) .strs arg
  arg

/-- sharing_nfs.py `nfs2`, after argument parsing: query the export by path,
then create / diff-and-update / delete, returning the middleware trace and
the outcome. -/
def nfs2_run (p : NfsParams) (check_mode : Bool)
    (export_info : Option ExportInfo) : List MWCall × Outcome :=
  let trace := [callOf "sharing.nfs.query"]
  match export_info with
  | none =>
      if p.state == "present" then
        if check_mode then
          (trace, .exited true "Would have created NFS export")
        else
          (trace ++ [callOf "sharing.nfs.create"], .exited true "created")
      else
        (trace, .exited false "")
  | some e =>
      if p.state == "present" then
        let arg := nfs2_update_arg p e
        if arg == [] then
          (trace, .exited false "")
        else if check_mode then
          (trace, .exited true "Would have updated NFS export")
        else
          (trace ++ [callOf "sharing.nfs.update"], .exited true "updated")
      else
        if check_mode then
          (trace, .exited true "Would have deleted NFS export")
        else
          (trace ++ [callOf "sharing.nfs.delete"], .exited true "deleted")

/-! ## certificate.py: certificate reconciler -/

/-- The certificate module's parameters after argument parsing (the `src` /
`private_keyfile` file substitution happens in the action plugin, before the
module runs; `revoked` has argument-spec default `False`). -/
structure CertParams where
  name : String
  state : String
  certificate : Option String
  private_key : Option String
  revoked : Bool
  deriving Repr, DecidableEq

/-- One certificate as returned by `certificate.query`. -/
structure CertInfo where
  id : Int
  revoked : Bool
  deriving Repr, DecidableEq

/-- certificate.py `main`, after argument parsing: query the certificate by
name; create (a job) then optionally revoke via `certificate.update`;
or diff `revoked` and update; or delete (a job). -/
def certificate_run (p : CertParams) (check_mode : Bool)
    (cert_info : Option CertInfo) : List MWCall × Outcome :=
  let trace := [callOf "certificate.query"]
  match cert_info with
  | none =>
      if p.state == "present" then
        if check_mode then
          let msg :=
            if p.revoked then
              "Would have created certificate\nWould mark certificate as revoked."
            else "Would have created certificate"
          (trace, .exited true msg)
        else
          let trace := trace ++ [jobOf "certificate.create"]
          if p.revoked then
            (trace ++ [callOf "certificate.update"], .exited true "created+revoked")
          else
            (trace, .exited true "created")
      else
        (trace, .exited false "")
  | some info =>
      if p.state == "present" then
        -- certificate.update() can only change 'revoked' here.
        let arg : List (String × Bool) :=
          if info.revoked != p.revoked then [("revoked", p.revoked)] else []
        if arg == [] then
          (trace, .exited false "")
        else if check_mode then
          (trace, .exited true "Would have updated certificate")
        else
          (trace ++ [callOf "certificate.update"], .exited true "updated")
      else
        if check_mode then
          (trace, .exited true "Would have deleted certificate")
        else
          (trace ++ [jobOf "certificate.delete"], .exited true "deleted")

/-! ## jail_fstab.py: jail fstab reconciler -/

/-- One desired fstab entry from the `fstab` module parameter.  `fstype`,
`options`, `dump`, `fsck_pass` and `state` have argument-spec defaults
(`"nullfs"`, `"ro"`, `0`, `0`, `"present"`); the source still guards them
with `is not None`, so they are kept optional here. -/
structure FsDesired where
  src : Option String
  mount : String
  fstype : Option String
  opts : Option String
  dump : Option Int
  fsck_pass : Option Int
  state : String
  deriving Repr, DecidableEq

/-- One observed fstab entry: the six-element list
`[src, mount, fstype, options, dump, fsck_pass]` of `jail.fstab` LIST. -/
structure FsEntry where
  src : String
  mount : String
  fstype : String
  opts : String
  dump : Int
  fsck : Int
  deriving Repr, DecidableEq

/-- An element of the module's `changes` list: `{action, entry}` plus, for
"replace" only, a `fields` dict.  For "add" the source appends the local
variable `entry` — which is `None` at that point — rather than `fs`. -/
structure FstabChange where
  action : String
  entry : Option FsEntry
  fields : Option (List (String × PVal))
  deriving Repr, DecidableEq

/-- jail_fstab.py: the absolute mount point of a desired entry (`mount_full`):
kept as-is when absolute, otherwise prefixed with
`{iocroot}/jails/{jail}/root/`. -/
def mount_full (iocroot jail : String) (fs : FsDesired) : String :=
  let m := fs.mount
  if strStartsWith m "/" then m
  else s!"{iocroot}/jails/{jail}/root/{m}"

/-- jail_fstab.py: the `change_fields` dict for an entry present both in the
desired fstab and in the jail (source, fstype, fsoptions, dump, pass, in
source order; `entry[0] != fs['src']` compares a string against a possibly
`None` src). -/
def change_fields_of (fs : FsDesired) (e : FsEntry) : List (String × PVal) :=
  let cf : List (String × PVal) := []
  let cf :=
    if some e.src != fs.src then
      dinsert "source" (match fs.src with | some s => .s s | none => .s "") cf
    else cf
  let cf :=
    match fs.fstype with
    | some ft => if e.fstype != ft then dinsert "fstype" (.s ft) cf else cf
    | none => cf
  let cf :=
    match fs.opts with
    | some o => if e.opts != o then dinsert "fsoptions" (.s o) cf else cf
    | none => cf
  let cf :=
    match fs.dump with
    | some d => if e.dump != d then dinsert "dump" (.i d) cf else cf
    | none => cf
  let cf :=
    match fs.fsck_pass with
    | some fp => if e.fsck != fp then dinsert "pass" (.i fp) cf else cf
    | none => cf
  cf

/-- jail_fstab.py: the `changes` accumulated by the loop over the `fstab`
parameter.  A desired entry not found in the jail and not absent queues an
"add" change whose `entry` is the source's `entry` variable — `None`; a found
entry that should be absent queues a "remove"; a found entry with differing
fields queues a "replace" carrying `change_fields`. -/
def desired_changes (iocroot jail : String) (user : List FsEntry) :
    List FsDesired → List FstabChange
  | [] => []
  | fs :: rest =>
      let mf := mount_full iocroot jail fs
      let entry := (user.filter (fun e => e.mount == mf)).head?
      let here : List FstabChange :=
        match entry with
        | none =>
            if fs.state == "absent" then []
            else [{ action := "add", entry := none, fields := none }]
        | some e =>
            if fs.state == "absent" then
              [{ action := "remove", entry := some e, fields := none }]
            else
              let cf := change_fields_of fs e
              if cf != [] then
                [{ action := "replace", entry := some e, fields := some cf }]
              else []
      here ++ desired_changes iocroot jail user rest

/-- jail_fstab.py: with `append=no`, every observed USER entry whose mount
point is not among the desired `mount_full`s queues a "remove" change. -/
def extra_changes (iocroot jail : String) (user : List FsEntry)
    (fstab : List FsDesired) : List FstabChange :=
  let listed := fstab.map (mount_full iocroot jail)
  ((user.filter (fun e => !listed.contains e.mount)).map
    (fun e => { action := "remove", entry := some e, fields := none }))

/-- Python `for (k, v) in <dict>`: iterating a dict yields its *keys*; each
key (a string) is then unpacked into the pair `(k, v)`, which raises
`ValueError` unless the key has exactly two characters. -/
def unpack_keys : List String → Except String Unit
  | [] => .ok ()
  | k :: rest =>
      if k.length == 2 then unpack_keys rest
      else .error "ValueError: too many values to unpack"

/-- jail_fstab.py, the change-application loop (lines building `args` from
each queued change): `args = {source: change['entry'][0], destination:
change['entry'][1]}` raises `TypeError` when `entry` is `None` (every "add"
change), and `for (k, v) in change['fields']` raises `KeyError` when the
change has no `fields` key (every "remove" change) and `ValueError` on the
first multi-character key otherwise (every "replace" change).  No
`jail.fstab` ADD/REMOVE/REPLACE call is issued anywhere in the loop. -/
def apply_changes : List FstabChange → Except String Unit
  | [] => .ok ()
  | c :: rest =>
      match c.entry with
      | none => .error "TypeError: NoneType object is not subscriptable"
      | some _ =>
          match c.fields with
          | none => .error "KeyError: fields"
          | some fl =>
              match unpack_keys (dkeys fl) with
              | .error e => .error e
              | .ok _ => apply_changes rest

/-- jail_fstab.py `main`, after argument parsing: look up the iocage root,
the jail's state and its fstab; queue changes; when any exist, stop the jail
(a job) if it is up, run the application loop, and restart the jail if it was
up.  Oracles: `iocroot`, the jail's `state` (`none` = no such jail), and the
`jail.fstab` LIST response (entries tagged "USER"/"SYSTEM"). -/
def jail_fstab_run (jail : String) (fstab : List FsDesired)
    (append check_mode : Bool) (iocroot : String)
    (jail_state : Option String) (fstab_info : List (FsEntry × String)) :
    List MWCall × Outcome :=
  let trace := [callOf "jail.get_iocroot", callOf "jail.query"]
  match jail_state with
  | none => (trace, .failed s!"No such jail {jail}")
  | some jstate =>
      let trace := trace ++ [callOf "jail.fstab"]
      let user := (fstab_info.filter (fun ev => ev.2 == "USER")).map Prod.fst
      let changes :=
        desired_changes iocroot jail user fstab
          ++ (if !append then extra_changes iocroot jail user fstab else [])
      if changes == [] then
        (trace, .exited false "")
      else
        let trace :=
          if jstate == "up" && !check_mode then trace ++ [jobOf "jail.stop"]
          else trace
        match apply_changes changes with
        | .error e => (trace, .pyError e)
        | .ok _ =>
            let trace :=
              if jstate == "up" && !check_mode then
                trace ++ [jobOf "jail.start"]
              else trace
            (trace, .exited true "")

/-! ## user.py: the sudo_flag and groups portions of the update diff -/

/-- A value in the user module's update-arg dict (for the fields embedded
here): booleans, string lists, and the integer group-id list. -/
inductive UVal where
  | b (v : Bool)
  | strs (v : List String)
  | ints (v : List Int)
  deriving Repr, DecidableEq

/-- The fields of the `user.query` result consumed by the sudo_flag and groups
blocks of user.py `main`. -/
structure UserInfo where
  sudo_flag : Bool
  sudo_nopasswd : Bool
  sudo_commands : List String
  sudo_commands_nopasswd : List String
  groups : List Int
  deriving Repr, DecidableEq

/-- user.py: `old_sudo_call` — the host uses the old middleware sudo_flag API and
the caller supplied the deprecated sudo/sudo_nopasswd options. -/
def old_sudo_call (old_sudo_api : Bool) (sudo_flag sudo_nopasswd : Option Bool) :
    Bool :=
  old_sudo_api && (sudo_flag.isSome || sudo_nopasswd.isSome)

/-- user.py `main`, the sudo block of the existing-user diff (old-style call:
plain `!=` on `sudo_commands`; old API with new-style options: translate to
`want_*` then set-compare the commands; new API: set-compare both command
lists). -/
def user_sudo_update_args (old_sudo_api : Bool)
    (sudo_flag sudo_nopasswd : Option Bool)
    (sudo_commands sudo_commands_nopasswd : Option (List String))
    (ui : UserInfo) : List (String × UVal) :=
  let arg : List (String × UVal) := []
  if old_sudo_call old_sudo_api sudo_flag sudo_nopasswd then
    let arg :=
      match sudo_flag with
      | some s => if ui.sudo_flag != s then dinsert "sudo" (.b s) arg else arg
      | none => arg
    let arg :=
      match sudo_nopasswd with
      | some s =>
          if ui.sudo_nopasswd != s then dinsert "sudo_nopasswd" (.b s) arg
          else arg
      | none => arg
    let arg :=
      match sudo_commands with
      | some sc =>
          -- Plain list comparison: order matters here.
          if ui.sudo_commands != sc then dinsert "sudo_commands" (.strs sc) arg
          else arg
      | none => arg
    arg
  else if old_sudo_api then
    let wants : Option Bool × Option Bool × Option (List String) :=
      match sudo_commands, sudo_commands_nopasswd with
      | none, none => (none, none, none)
      | none, some scn =>
          (some true, some true,
           some (if scn.contains "ALL" then [] else scn))
      | some sc, none =>
          (some true, some false,
           some (if sc.contains "ALL" then [] else sc))
      | some _, some _ => (none, none, none)
    let arg :=
      match wants.1 with
      | some w => if ui.sudo_flag != w then dinsert "sudo" (.b w) arg else arg
      | none => arg
    let arg :=
      match wants.2.1 with
      | some w =>
          if ui.sudo_nopasswd != w then dinsert "sudo_nopasswd" (.b w) arg
          else arg
      | none => arg
    let arg :=
      match wants.2.2 with
      | some wc =>
          if !pySetEq ui.sudo_commands wc then
            dinsert "sudo_commands" (.strs wc) arg
          else arg
      | none => arg
    arg
  else
    let arg :=
      match sudo_commands with
      | some sc =>
          if !pySetEq ui.sudo_commands sc then
            dinsert "sudo_commands" (.strs sc) arg
          else arg
      | none => arg
    let arg :=
      match sudo_commands_nopasswd with
      | some scn =>
          if !pySetEq ui.sudo_commands_nopasswd scn then
            dinsert "sudo_commands_nopasswd" (.strs scn) arg
          else arg
      | none => arg
    arg

/-- user.py `main`, the groups block of the existing-user diff: the wanted
group-id set comes from looking the `groups` names up (`grouplist_ids` is
that query's answer, empty without a call when `groups` is `[]`); with
`append` the final set is the union with the user's current set; the
`groups` arg is added only when the final set differs from the current one.
Python's `list(set)` order is unspecified; the embedding stores the deduped
union in a fixed order, and nothing below depends on that order. -/
def user_groups_update_arg (groups : Option (List String)) (append : Bool)
    (grouplist_ids : List Int) (ui : UserInfo) : List (String × UVal) :=
  match groups with
  | none => []
  | some _ =>
      let want := grouplist_ids.dedup
      let final := if append then (want ++ ui.groups).dedup else want
      if !pySetEqInt final ui.groups then [("groups", .ints final)]
      else []

/-! ## Concrete instances used by witnesses and counterexamples -/

/-- A second-run parameter set for an existing VOLUME dataset: every supplied
field matches the observed state, and `force_size` carries its argument-spec
default `False`. -/
def volParams : FsParams :=
  { name := "tank/vol0", state := "present", dstype := "VOLUME",
    volsize := some 1048576, volblocksize := none, sparse := none,
    force_size := some false, create_ancestors := some false,
    props := fun _ => none, user_properties := [],
    user_properties_update := [] }

/-- The matching observed VOLUME dataset for `volParams`. -/
def volDs : DsInfo :=
  { dstype := "VOLUME",
    raw := fun p =>
      if p == "volsize" then some "1048576"
      else if p == "volblocksize" then some "65536"
      else none }

/-- A request to change `volblocksize` on the existing volume `volDs`
(observed 64KiB = "65536", requested "128K"), with `force_size` unset so that
nothing else differs. -/
def volBlockParams : FsParams :=
  { volParams with volblocksize := some "128K", force_size := none }

/-- The desired jail fstab of the C3 scenario: one entry, absent at `/data`. -/
def fstabAbsentData : List FsDesired :=
  [{ src := none, mount := "/data", fstype := some "nullfs",
     opts := some "ro", dump := some 0, fsck_pass := some 0,
     state := "absent" }]

/-- The observed jail fstab of the C3 scenario: one USER entry mounted at
`/data`. -/
def fstabObserved : List (FsEntry × String) :=
  [({ src := "/mnt/tank/data", mount := "/data", fstype := "nullfs",
      opts := "ro", dump := 0, fsck := 0 }, "USER")]

/-- Observed user state whose sudo commands are `["b", "a"]`. -/
def uiSudoBA : UserInfo :=
  { sudo_flag := true, sudo_nopasswd := false,
    sudo_commands := ["b", "a"], sudo_commands_nopasswd := [],
    groups := [10, 20] }

/-! ## Helper lemmas about the dict model -/
theorem dkeys_dinsert {α : Type} (k : String) (v : α)
    (d : List (String × α)) :
    dkeys (dinsert k v d) =
      if d.any (fun kv => kv.1 == k) then dkeys d else dkeys d ++ [k] := by
  unfold dinsert dkeys
  by_cases hany : d.any (fun kv => kv.1 == k)
  · simp only [hany, if_true, List.map_map]
    apply List.map_congr_left
    intro kv _
    by_cases hk : (kv.1 == k) = true
    · rw [Function.comp_apply, if_pos hk]
      exact (beq_iff_eq.mp hk).symm
    · rw [Function.comp_apply, if_neg hk]
  · simp [hany]

theorem mem_dkeys_dinsert {α : Type} {k' k : String} {v : α}
    {d : List (String × α)} :
    k' ∈ dkeys (dinsert k v d) ↔ k' = k ∨ k' ∈ dkeys d := by
  rw [dkeys_dinsert]
  by_cases hany : d.any (fun kv => kv.1 == k)
  · simp only [hany, if_true]
    constructor
    · exact Or.inr
    · rintro (rfl | h)
      · rcases List.any_eq_true.mp hany with ⟨kv, hkv, hk⟩
        exact List.mem_map.mpr ⟨kv, hkv, beq_iff_eq.mp hk⟩
      · exact h
  · simp [hany, or_comm]

theorem not_mem_dkeys_dinsert {α : Type} {k' k : String} {v : α}
    {d : List (String × α)} (h1 : k' ≠ k) (h2 : k' ∉ dkeys d) :
    k' ∉ dkeys (dinsert k v d) := by
  rw [mem_dkeys_dinsert]
  rintro (rfl | hmem)
  · exact h1 rfl
  · exact h2 hmem

theorem mem_dkeys_dinsert_self {α : Type} (k : String) (v : α)
    (d : List (String × α)) : k ∈ dkeys (dinsert k v d) := by
  rw [mem_dkeys_dinsert]; exact Or.inl rfl

theorem mem_dkeys_dinsert_of_mem {α : Type} {k' : String} (k : String)
    (v : α) {d : List (String × α)} (h : k' ∈ dkeys d) :
    k' ∈ dkeys (dinsert k v d) := by
  rw [mem_dkeys_dinsert]; exact Or.inr h

theorem dlookup_map_replace {α : Type} {k' k : String} {v : α}
    (h : k' ≠ k) (d : List (String × α)) :
    dlookup k' (d.map (fun kv => if kv.1 == k then (k, v) else kv))
      = dlookup k' d := by
  induction d with
  | nil => rfl
  | cons kv t ih =>
      simp only [List.map_cons, dlookup]
      by_cases hk : (kv.1 == k) = true
      · have hkk' : ¬((k, v).1 == k') = true := by
          intro hb
          exact h (beq_iff_eq.mp hb).symm
        have hkv' : ¬(kv.1 == k') = true := by
          intro hb
          have e1 : kv.1 = k := beq_iff_eq.mp hk
          have e2 : kv.1 = k' := beq_iff_eq.mp hb
          exact h (by rw [← e2, e1])
        rw [if_pos hk, if_neg hkk', if_neg hkv', ih]
      · rw [if_neg hk]
        by_cases hbe : (kv.1 == k') = true
        · rw [if_pos hbe, if_pos hbe]
        · rw [if_neg hbe, if_neg hbe, ih]

theorem dlookup_append_single_ne {α : Type} {k' k : String} {v : α}
    (h : k' ≠ k) (d : List (String × α)) :
    dlookup k' (d ++ [(k, v)]) = dlookup k' d := by
  induction d with
  | nil =>
      have : (k == k') = false := by
        cases hbe : (k == k') with
        | false => rfl
        | true => exact absurd (beq_iff_eq.mp hbe).symm h
      simp [dlookup, this]
  | cons kv t ih =>
      simp only [List.cons_append, dlookup]
      cases hbe : (kv.1 == k') with
      | false => simpa [hbe] using ih
      | true => simp [hbe]

theorem dlookup_dinsert_ne {α : Type} {k' k : String} (v : α)
    (d : List (String × α)) (h : k' ≠ k) :
    dlookup k' (dinsert k v d) = dlookup k' d := by
  unfold dinsert
  by_cases hany : d.any (fun kv => kv.1 == k)
  · simp only [hany, if_true]; exact dlookup_map_replace h d
  · simp only [hany, if_false]; exact dlookup_append_single_ne h d

theorem dlookup_map_replace_self {α : Type} {k : String} {v : α}
    {d : List (String × α)} (hany : d.any (fun kv => kv.1 == k) = true) :
    dlookup k (d.map (fun kv => if kv.1 == k then (k, v) else kv))
      = some v := by
  induction d with
  | nil => simp at hany
  | cons kv t ih =>
      by_cases hk : (kv.1 == k) = true
      · simp [dlookup, hk]
      · have hany' : (t.any fun kv => kv.1 == k) = true := by
          simp only [List.any_cons, Bool.or_eq_true] at hany
          exact hany.resolve_left hk
        simp only [List.map_cons, dlookup]
        rw [if_neg hk, if_neg (show ¬(kv.1 == k) = true from hk)]
        exact ih hany'

theorem dlookup_append_single_self {α : Type} {k : String} {v : α}
    {d : List (String × α)} (hany : d.any (fun kv => kv.1 == k) = false) :
    dlookup k (d ++ [(k, v)]) = some v := by
  induction d with
  | nil => simp [dlookup]
  | cons kv t ih =>
      simp only [List.any_cons, Bool.or_eq_false_iff] at hany
      simp only [List.cons_append, dlookup, hany.1]
      exact ih hany.2

theorem dlookup_dinsert_self {α : Type} (k : String) (v : α)
    (d : List (String × α)) : dlookup k (dinsert k v d) = some v := by
  unfold dinsert
  cases hany : d.any (fun kv => kv.1 == k) with
  | true => simp only [if_true]; exact dlookup_map_replace_self hany
  | false => simp only [Bool.false_eq_true, if_false]
             exact dlookup_append_single_self hany

/-! ## Helper lemmas about the diff-stage combinators -/

theorem dlookup_optStage_ne {β : Type} {k' key : String} {o : Option β}
    {f : β → Bool} {mk : β → AVal} {arg : List (String × AVal)}
    (h : k' ≠ key) :
    dlookup k' (optStage key o f mk arg) = dlookup k' arg := by
  cases o with
  | none => rfl
  | some v =>
      simp only [optStage]
      by_cases hf : f v = true
      · rw [if_pos hf]; exact dlookup_dinsert_ne _ _ h
      · rw [if_neg hf]

theorem not_mem_dkeys_optStage {β : Type} {k' key : String} {o : Option β}
    {f : β → Bool} {mk : β → AVal} {arg : List (String × AVal)}
    (h : k' ≠ key) (h2 : k' ∉ dkeys arg) :
    k' ∉ dkeys (optStage key o f mk arg) := by
  cases o with
  | none => exact h2
  | some v =>
      simp only [optStage]
      by_cases hf : f v = true
      · rw [if_pos hf]; exact not_mem_dkeys_dinsert h h2
      · rw [if_neg hf]; exact h2

theorem optStage_eq_of_same {β : Type} {key : String} {o : Option β} {v : β}
    {f : β → Bool} {mk : β → AVal} {arg : List (String × AVal)}
    (ho : o = some v) (hf : f v = false) :
    optStage key o f mk arg = arg := by
  unfold optStage
  rw [ho]
  simp [hf]

theorem dlookup_mapStage_ne {k' key otherKey : String} {o : Option String}
    {cur ocur : Option String} {arg : List (String × AVal)}
    (h1 : k' ≠ key) (h2 : k' ≠ otherKey) :
    dlookup k' (mapStage key otherKey o cur ocur arg) = dlookup k' arg := by
  cases o with
  | none => rfl
  | some u =>
      simp only [mapStage]
      by_cases hd : (cur != some u) = true
      · rw [if_pos hd]
        by_cases hoc : ocur.isSome = true
        · simp only [hoc, if_true]
          rw [dlookup_dinsert_ne _ _ h2, dlookup_dinsert_ne _ _ h1]
        · simp only [hoc, Bool.false_eq_true, if_false]
          exact dlookup_dinsert_ne _ _ h1
      · rw [if_neg hd]

theorem not_mem_dkeys_mapStage {k' key otherKey : String} {o : Option String}
    {cur ocur : Option String} {arg : List (String × AVal)}
    (h1 : k' ≠ key) (h2 : k' ≠ otherKey) (h3 : k' ∉ dkeys arg) :
    k' ∉ dkeys (mapStage key otherKey o cur ocur arg) := by
  cases o with
  | none => exact h3
  | some u =>
      simp only [mapStage]
      by_cases hd : (cur != some u) = true
      · rw [if_pos hd]
        by_cases hoc : ocur.isSome = true
        · simp only [hoc, if_true]
          exact not_mem_dkeys_dinsert h2 (not_mem_dkeys_dinsert h1 h3)
        · simp only [hoc, Bool.false_eq_true, if_false]
          exact not_mem_dkeys_dinsert h1 h3
      · rw [if_neg hd]; exact h3

theorem dlookup_mapStage_self {key otherKey : String} {u : String}
    {cur ocur : Option String} {arg : List (String × AVal)}
    (hne : key ≠ otherKey) (hd : (cur != some u) = true) :
    dlookup key (mapStage key otherKey (some u) cur ocur arg)
      = some (.s u) := by
  simp only [mapStage]
  rw [if_pos hd]
  by_cases hoc : ocur.isSome = true
  · simp only [hoc, if_true]
    rw [dlookup_dinsert_ne _ _ hne, dlookup_dinsert_self]
  · simp only [hoc, Bool.false_eq_true, if_false]
    rw [dlookup_dinsert_self]

theorem dlookup_mapStage_clear {key otherKey : String} {u : String}
    {cur ocur : Option String} {arg : List (String × AVal)}
    (hd : (cur != some u) = true) (hoc : ocur.isSome = true) :
    dlookup otherKey (mapStage key otherKey (some u) cur ocur arg)
      = some .null := by
  simp only [mapStage]
  rw [if_pos hd]
  simp only [hoc, if_true]
  rw [dlookup_dinsert_self]

theorem mapStage_none {key otherKey : String} {cur ocur : Option String}
    {arg : List (String × AVal)} :
    mapStage key otherKey none cur ocur arg = arg := rfl

/-! ## Helper lemmas about Python set equality -/

theorem pySetEq_iff {a b : List String} :
    pySetEq a b = true ↔ (∀ x ∈ a, x ∈ b) ∧ ∀ x ∈ b, x ∈ a := by
  unfold pySetEq
  simp [List.all_eq_true]

theorem pySetEq_of_perm {a b : List String} (h : a.Perm b) :
    pySetEq a b = true :=
  pySetEq_iff.mpr ⟨fun x hx => h.mem_iff.mp hx, fun x hx => h.mem_iff.mpr hx⟩

theorem pySetEqInt_iff {a b : List Int} :
    pySetEqInt a b = true ↔ (∀ x ∈ a, x ∈ b) ∧ ∀ x ∈ b, x ∈ a := by
  unfold pySetEqInt
  simp [List.all_eq_true]

/-! ## Helper lemmas about the filesystem update-arg computation -/

theorem update_props_loop_of_matching (p : FsParams) (ds : DsInfo)
    (l : List String) (acc : List (String × PVal))
    (h : ∀ prop ∈ l, ∀ v, p.props prop = some v →
        compare_prop v (prop_rawvalue ds prop) = .ok true) :
    update_props_loop p ds l acc = .ok acc := by
  induction l with
  | nil => rfl
  | cons prop rest ih =>
      simp only [update_props_loop]
      split
      · exact ih fun q hq => h q (List.mem_cons_of_mem _ hq)
      · rename_i v hp
        split
        · rename_i e heq
          rw [h prop (List.mem_cons_self _ _) v hp] at heq
          exact Except.noConfusion heq
        · rename_i same heq
          rw [h prop (List.mem_cons_self _ _) v hp] at heq
          injection heq with hsame
          subst hsame
          rw [if_pos rfl]
          exact ih fun q hq => h q (List.mem_cons_of_mem _ hq)

theorem mem_dkeys_update_props_loop (p : FsParams) (ds : DsInfo) :
    ∀ (l : List String) (acc res : List (String × PVal)),
    update_props_loop p ds l acc = .ok res →
    ∀ k ∈ dkeys res, k ∈ l ∨ k ∈ dkeys acc := by
  intro l
  induction l with
  | nil =>
      intro acc res h k hk
      cases h
      exact Or.inr hk
  | cons prop rest ih =>
      intro acc res h k hk
      simp only [update_props_loop] at h
      split at h
      · rcases ih acc res h k hk with hr | ha
        · exact Or.inl (List.mem_cons_of_mem _ hr)
        · exact Or.inr ha
      · rename_i v hp
        split at h
        · exact Except.noConfusion h
        · rename_i same heq
          cases same with
          | true =>
              rw [if_pos rfl] at h
              rcases ih acc res h k hk with hr | ha
              · exact Or.inl (List.mem_cons_of_mem _ hr)
              · exact Or.inr ha
          | false =>
              rw [if_neg (by simp)] at h
              rcases ih _ res h k hk with hr | ha
              · exact Or.inl (List.mem_cons_of_mem _ hr)
              · rcases mem_dkeys_dinsert.mp ha with rfl | ha'
                · exact Or.inl (List.mem_cons_self _ _)
                · exact Or.inr ha'

theorem mem_dkeys_update_props_loop_of_mem (p : FsParams) (ds : DsInfo) :
    ∀ (l : List String) (acc res : List (String × PVal)),
    update_props_loop p ds l acc = .ok res →
    ∀ k ∈ dkeys acc, k ∈ dkeys res := by
  intro l
  induction l with
  | nil =>
      intro acc res h k hk
      cases h
      exact hk
  | cons prop rest ih =>
      intro acc res h k hk
      simp only [update_props_loop] at h
      split at h
      · exact ih acc res h k hk
      · rename_i v hp
        split at h
        · exact Except.noConfusion h
        · rename_i same heq
          cases same with
          | true => rw [if_pos rfl] at h; exact ih acc res h k hk
          | false =>
              rw [if_neg (by simp)] at h
              exact ih _ res h k (mem_dkeys_dinsert_of_mem _ _ hk)

theorem volume_update_args_of_matching (p : FsParams) (ds : DsInfo)
    (hfs : p.force_size = none)
    (hvol : ∀ vs, p.volsize = some vs →
        prop_rawvalue ds "volsize" = some (toString vs))
    (hsp : ∀ sp, p.sparse = some sp →
        same_value_bool sp (prop_rawvalue ds "sparse") = true) :
    volume_update_args p ds = [] := by
  unfold volume_update_args
  rw [hfs]
  cases hv : p.volsize with
  | none =>
      cases hs : p.sparse with
      | none => rfl
      | some sp => simp [hsp sp hs]
  | some vs =>
      have : (some (toString vs) != prop_rawvalue ds "volsize") = false := by
        rw [hvol vs hv]; simp
      cases hs : p.sparse with
      | none => simp [this]
      | some sp => simp [this, hsp sp hs]

theorem mem_dkeys_volume_update_args (p : FsParams) (ds : DsInfo) :
    ∀ k ∈ dkeys (volume_update_args p ds),
      k = "volsize" ∨ k = "sparse" ∨ k = "force_size" := by
  intro k hk
  rcases hv : p.volsize with _ | vs
  all_goals rcases hs : p.sparse with _ | sp
  all_goals rcases hf : p.force_size with _ | fb
  all_goals simp only [volume_update_args, hv, hs, hf] at hk
  all_goals repeat' split at hk
  all_goals (try simp only [mem_dkeys_dinsert] at hk)
  all_goals (try simp [dkeys] at hk)
  all_goals tauto

theorem mem_dkeys_volume_update_args_force_size (p : FsParams) (ds : DsInfo)
    (b : Bool) (hfs : p.force_size = some b) :
    "force_size" ∈ dkeys (volume_update_args p ds) := by
  unfold volume_update_args
  rw [hfs]
  exact mem_dkeys_dinsert_self _ _ _

theorem mem_dkeys_ite_dinsert {α : Type} {k' : String} (c : Prop)
    [Decidable c] (k : String) (v : α) (d : List (String × α))
    (h : k' ∈ dkeys d) : k' ∈ dkeys (if c then dinsert k v d else d) := by
  by_cases hc : c
  · rw [if_pos hc]; exact mem_dkeys_dinsert_of_mem _ _ h
  · rw [if_neg hc]; exact h
theorem dlookup_ite_dinsert_ne {k' k : String} (c : Prop) [Decidable c]
    (v : AVal) (d : List (String × AVal)) (h : k' ≠ k) :
    dlookup k' (if c then dinsert k v d else d) = dlookup k' d := by
  by_cases hc : c
  · rw [if_pos hc, dlookup_dinsert_ne _ _ h]
  · rw [if_neg hc]

theorem not_mem_dkeys_ite_dinsert {α : Type} {k' k : String} (c : Prop)
    [Decidable c] (v : α) (d : List (String × α)) (h1 : k' ≠ k)
    (h2 : k' ∉ dkeys d) : k' ∉ dkeys (if c then dinsert k v d else d) := by
  by_cases hc : c
  · rw [if_pos hc]; exact not_mem_dkeys_dinsert h1 h2
  · rw [if_neg hc]; exact h2

/-! ## Per-module lemmas: a changed=false exit issues no mutating call -/

theorem group_unchanged_no_mutation (p : GroupParams) (cm : Bool)
    (q : Option GroupInfo) (m : String)
    (hout : (group_run p cm q).2 = .exited false m) :
    ∀ c ∈ (group_run p cm q).1, mutatingCall c = false := by
  intro c hc
  revert hout hc
  simp only [group_run]
  repeat' split
  all_goals intro hout hc
  all_goals try simp at hout
  all_goals simp only [List.mem_singleton, List.mem_cons,
    List.not_mem_nil, or_false] at hc
  all_goals first
    | (subst hc; decide)
    | (rcases hc with rfl | rfl | rfl | rfl <;> decide)

theorem nfs2_unchanged_no_mutation (p : NfsParams) (cm : Bool)
    (e : Option ExportInfo) (m : String)
    (hout : (nfs2_run p cm e).2 = .exited false m) :
    ∀ c ∈ (nfs2_run p cm e).1, mutatingCall c = false := by
  intro c hc
  revert hout hc
  simp only [nfs2_run]
  repeat' split
  all_goals intro hout hc
  all_goals try simp at hout
  all_goals simp only [List.mem_singleton, List.mem_cons,
    List.not_mem_nil, or_false] at hc
  all_goals first
    | (subst hc; decide)
    | (rcases hc with rfl | rfl | rfl | rfl <;> decide)

theorem certificate_unchanged_no_mutation (p : CertParams) (cm : Bool)
    (ci : Option CertInfo) (m : String)
    (hout : (certificate_run p cm ci).2 = .exited false m) :
    ∀ c ∈ (certificate_run p cm ci).1, mutatingCall c = false := by
  intro c hc
  revert hout hc
  simp only [certificate_run]
  repeat' split
  all_goals intro hout hc
  all_goals try simp at hout
  all_goals simp only [List.mem_singleton, List.mem_cons,
    List.not_mem_nil, or_false] at hc
  all_goals first
    | (subst hc; decide)
    | (rcases hc with rfl | rfl | rfl | rfl <;> decide)

theorem filesystem_unchanged_no_mutation (p : FsParams) (cm : Bool)
    (ds : Option DsInfo) (m : String)
    (hout : (filesystem_run p cm ds).2 = .exited false m) :
    ∀ c ∈ (filesystem_run p cm ds).1, mutatingCall c = false := by
  intro c hc
  revert hout hc
  simp only [filesystem_run]
  repeat' split
  all_goals intro hout hc
  all_goals try simp at hout
  all_goals simp only [List.mem_singleton, List.mem_cons,
    List.not_mem_nil, or_false] at hc
  all_goals first
    | (subst hc; decide)
    | (rcases hc with rfl | rfl | rfl | rfl <;> decide)

theorem jail_fstab_unchanged_no_mutation (jail : String)
    (fstab : List FsDesired) (append cm : Bool) (iocroot : String)
    (jstate : Option String) (fi : List (FsEntry × String)) (m : String)
    (hout : (jail_fstab_run jail fstab append cm iocroot jstate fi).2
      = .exited false m) :
    ∀ c ∈ (jail_fstab_run jail fstab append cm iocroot jstate fi).1,
      mutatingCall c = false := by
  intro c hc
  revert hout hc
  simp only [jail_fstab_run]
  repeat' split
  all_goals intro hout hc
  all_goals try simp at hout
  all_goals simp only [List.mem_singleton, List.mem_cons, List.mem_append,
    List.not_mem_nil, or_false] at hc
  all_goals first
    | (subst hc; decide)
    | (rcases hc with rfl | rfl | rfl | rfl <;> decide)
    | (rcases hc with (rfl | rfl) | rfl <;> decide)

/-! ## Claim C2 -/

/-- Claim C2: for every embedded reconciler (group, NFS sharing, certificate,
filesystem, jail fstab), an invocation that terminates with `changed=false`
in its report issued no mutating middleware call — every call in its trace
is a query/lookup (`mutatingCall` covers create/update/delete, jail
start/stop, and every job). -/
theorem C2_unchanged_means_no_mutation :
    (∀ (p : GroupParams) (cm : Bool) (q : Option GroupInfo) m,
        (group_run p cm q).2 = .exited false m →
        ∀ c ∈ (group_run p cm q).1, mutatingCall c = false)
    ∧ (∀ (p : NfsParams) (cm : Bool) (e : Option ExportInfo) m,
        (nfs2_run p cm e).2 = .exited false m →
        ∀ c ∈ (nfs2_run p cm e).1, mutatingCall c = false)
    ∧ (∀ (p : CertParams) (cm : Bool) (ci : Option CertInfo) m,
        (certificate_run p cm ci).2 = .exited false m →
        ∀ c ∈ (certificate_run p cm ci).1, mutatingCall c = false)
    ∧ (∀ (p : FsParams) (cm : Bool) (ds : Option DsInfo) m,
        (filesystem_run p cm ds).2 = .exited false m →
        ∀ c ∈ (filesystem_run p cm ds).1, mutatingCall c = false)
    ∧ (∀ (jail : String) (fstab : List FsDesired) (append cm : Bool)
        (iocroot : String) (jstate : Option String)
        (fi : List (FsEntry × String)) m,
        (jail_fstab_run jail fstab append cm iocroot jstate fi).2
          = .exited false m →
        ∀ c ∈ (jail_fstab_run jail fstab append cm iocroot jstate fi).1,
          mutatingCall c = false) :=
  ⟨group_unchanged_no_mutation, nfs2_unchanged_no_mutation,
   certificate_unchanged_no_mutation, filesystem_unchanged_no_mutation,
   jail_fstab_unchanged_no_mutation⟩

/-- Witness for C2: a concrete group run on an already-converged group
reports `changed=false`, and the theorem yields that its one call (the
initial `group.query`) is not mutating. -/
theorem C2_unchanged_means_no_mutation_witness :
    mutatingCall (callOf "group.query") = false :=
  C2_unchanged_means_no_mutation.1
    { gid := some 1000, name := "g1", state := "present",
      non_unique := false }
    false (some { id := 5, gid := 1000 }) "" rfl
    (callOf "group.query") (by simp [group_run])

/-! ## Claim C1 -/

/-- Claim C1 counterexample: a second run of the filesystem module on an
existing, fully matching VOLUME dataset with identical parameters (and the
argument-spec default `force_size=false`).  The update-argument set is
`{force_size: false}` — not empty — so the module reports `changed=true` and
issues a `pool.dataset.update` call, contradicting the claimed
`changed=false` with no calls beyond the initial query. -/
theorem C1_counterexample :
    build_update_args volParams volDs = .ok [("force_size", .b false)]
    ∧ filesystem_run volParams false (some volDs)
        = ([callOf "pool.dataset.query", callOf "pool.dataset.update"],
           .exited true "Updated dataset.") :=
  ⟨rfl, rfl⟩

/-- Claim C1 amended: for the filesystem module on an existing VOLUME
dataset, a second run with identical parameters always carries `force_size`
in the update-argument set whenever `force_size` is non-None (which the
argument-spec default `false` guarantees), so the run stays `changed=true`;
the update-argument set is empty — and the second run reports
`changed=false` with no transport call beyond the initial query — exactly
when `force_size` is None and every supplied field matches the observed
state under the module's own comparators (with the always-resent
`user_properties`/`user_properties_update` lists empty). -/
theorem C1_amended_idempotence :
    (∀ (p : FsParams) (ds : DsInfo) (b : Bool) args,
        ds.dstype = "VOLUME" → p.force_size = some b →
        build_update_args p ds = .ok args →
        "force_size" ∈ dkeys args)
    ∧ (∀ (p : FsParams) (ds : DsInfo),
        ds.dstype = "VOLUME" →
        p.state = "present" →
        p.force_size = none →
        (∀ vs, p.volsize = some vs →
            prop_rawvalue ds "volsize" = some (toString vs)) →
        (∀ sp, p.sparse = some sp →
            same_value_bool sp (prop_rawvalue ds "sparse") = true) →
        (∀ prop ∈ updatable_props, ∀ v, p.props prop = some v →
            compare_prop v (prop_rawvalue ds prop) = .ok true) →
        p.user_properties = [] →
        p.user_properties_update = [] →
        build_update_args p ds = .ok []
        ∧ filesystem_run p false (some ds)
            = ([callOf "pool.dataset.query"],
               .exited false "Dataset is up to date.")) := by
  constructor
  · intro p ds b args hds hfs hba
    have hmem0 : "force_size" ∈ dkeys (volume_update_args p ds) :=
      mem_dkeys_volume_update_args_force_size p ds b hfs
    simp only [build_update_args, hds, beq_self_eq_true, if_true] at hba
    split at hba
    · exact Except.noConfusion hba
    · rename_i r heq
      injection hba with hba
      subst hba
      have hmem1 : "force_size" ∈ dkeys r :=
        mem_dkeys_update_props_loop_of_mem p ds _ _ _ heq _ hmem0
      exact mem_dkeys_ite_dinsert _ _ _ _ (mem_dkeys_ite_dinsert _ _ _ _ hmem1)
  · intro p ds hds hstate hfs hvol hsp hprops hup hupd
    have hvolargs : volume_update_args p ds = [] :=
      volume_update_args_of_matching p ds hfs hvol hsp
    have hloop : update_props_loop p ds updatable_props
        (if ds.dstype == "VOLUME" then volume_update_args p ds else [])
        = .ok [] := by
      rw [hds, hvolargs]
      simp only [beq_self_eq_true, if_true]
      exact update_props_loop_of_matching p ds _ _ hprops
    have hbuild : build_update_args p ds = .ok [] := by
      simp only [build_update_args, hloop, hup, hupd]
      simp
    refine ⟨hbuild, ?_⟩
    simp only [filesystem_run, hstate, hbuild]
    simp

/-- Witness for the C1 amended theorem: the `volParams`/`volDs` pair with
`force_size` cleared satisfies every matching hypothesis, and a concrete
application of the first conjunct to `volParams` itself. -/
theorem C1_amended_idempotence_witness :
    "force_size" ∈ dkeys [("force_size", PVal.b false)]
    ∧ build_update_args { volParams with force_size := none } volDs = .ok []
    ∧ filesystem_run { volParams with force_size := none } false (some volDs)
        = ([callOf "pool.dataset.query"],
           .exited false "Dataset is up to date.") := by
  refine ⟨C1_amended_idempotence.1 volParams volDs false
      [("force_size", PVal.b false)] rfl rfl rfl, ?_⟩
  have h := C1_amended_idempotence.2 { volParams with force_size := none }
    volDs rfl rfl rfl
    (by intro vs hvs; cases hvs; rfl)
    (by intro sp hsp; cases hsp)
    (by intro prop hprop v hv; cases hv)
    rfl rfl
  exact h

/-! ## Claim C4 -/

/-- Claim C4 counterexample: requesting a `volblocksize` change ("128K"
against observed "65536") on the existing volume `volDs` neither fails nor
produces any update payload: the module exits normally with `changed=false`
and never consults `volblocksize`, contradicting the claimed clear error. -/
theorem C4_counterexample :
    build_update_args volBlockParams volDs = .ok []
    ∧ filesystem_run volBlockParams false (some volDs)
        = ([callOf "pool.dataset.query"],
           .exited false "Dataset is up to date.") :=
  ⟨rfl, rfl⟩

/-- Claim C4 amended: when the caller requests a change to `volblocksize` on
an existing volume, the filesystem module silently ignores the request — the
field never appears in the update payload sent to the daemon (no error is
raised on its account; the run exits as if the field had not been given). -/
theorem C4_amended_volblocksize_ignored :
    ∀ (p : FsParams) (ds : DsInfo) (args : List (String × PVal)),
      build_update_args p ds = .ok args →
      "volblocksize" ∉ dkeys args := by
  intro p ds args hba hk
  simp only [build_update_args] at hba
  split at hba
  · exact Except.noConfusion hba
  · rename_i r heq
    injection hba with hba
    subst hba
    -- peel the two user-property inserts
    have hk1 : "volblocksize" ∈ dkeys r := by
      by_cases h2 : (p.user_properties_update != []
          && (p.user_properties_update.map (fun item =>
            if item.2.2 == some true then
              (item.1, (none : Option String), some true)
            else match item.2.1 with
              | some v => (item.1, some v, none)
              | none => (item.1, none, none))) != []) = true
      all_goals by_cases h1 : (p.user_properties != []) = true
      all_goals simp only [h1, h2, if_true, Bool.false_eq_true, if_false]
          at hk
      all_goals
        first
        | exact hk
        | (rcases mem_dkeys_dinsert.mp hk with heq' | hk' <;>
            first
            | exact absurd heq' (by decide)
            | (rcases mem_dkeys_dinsert.mp hk' with heq'' | hk'' <;>
                first
                | exact absurd heq'' (by decide)
                | exact hk''
                | exact hk')
            | exact hk')
    rcases mem_dkeys_update_props_loop p ds _ _ _ heq _ hk1 with hl | hacc
    · exact absurd hl (by decide)
    · by_cases hv : (ds.dstype == "VOLUME") = true
      · rw [if_pos hv] at hacc
        rcases mem_dkeys_volume_update_args p ds _ hacc with h | h | h
          <;> exact absurd h (by decide)
      · rw [if_neg hv] at hacc
        simp [dkeys] at hacc

/-- Witness for the C4 amended theorem at the concrete counterexample
input. -/
theorem C4_amended_volblocksize_ignored_witness :
    "volblocksize" ∉ dkeys ([] : List (String × PVal)) :=
  C4_amended_volblocksize_ignored volBlockParams volDs [] rfl

/-! ## Claim C5 -/

/-- Claim C5: in both NFS sharing dialects (`nfs2` and `NFS1.run`), for each
mutually exclusive pair — maproot_user/mapall_user and
maproot_group/mapall_group, in both directions — when the desired spec sets
field A (and, per the module's `mutually_exclusive` contract, leaves B
unset), A differs from the observed value, and B carries a value in the
observed state, the computed update-arg Diff maps A to the new value and B
to the clearing `None`. -/
theorem C5_mutual_exclusive_clearing :
    ∀ (p : NfsParams) (e : ExportInfo) (paths : List String),
      (∀ u, p.maproot_user = some u → p.mapall_user = none →
        e.maproot_user ≠ some u → e.mapall_user.isSome = true →
        (dlookup "maproot_user" (nfs2_update_arg p e) = some (.s u)
          ∧ dlookup "mapall_user" (nfs2_update_arg p e) = some .null)
        ∧ (dlookup "maproot_user" (nfs1_update_arg p paths e) = some (.s u)
          ∧ dlookup "mapall_user" (nfs1_update_arg p paths e) = some .null))
      ∧ (∀ g, p.maproot_group = some g → p.mapall_group = none →
        e.maproot_group ≠ some g → e.mapall_group.isSome = true →
        (dlookup "maproot_group" (nfs2_update_arg p e) = some (.s g)
          ∧ dlookup "mapall_group" (nfs2_update_arg p e) = some .null)
        ∧ (dlookup "maproot_group" (nfs1_update_arg p paths e) = some (.s g)
          ∧ dlookup "mapall_group" (nfs1_update_arg p paths e)
              = some .null))
      ∧ (∀ u, p.mapall_user = some u → p.maproot_user = none →
        e.mapall_user ≠ some u → e.maproot_user.isSome = true →
        (dlookup "mapall_user" (nfs2_update_arg p e) = some (.s u)
          ∧ dlookup "maproot_user" (nfs2_update_arg p e) = some .null)
        ∧ (dlookup "mapall_user" (nfs1_update_arg p paths e) = some (.s u)
          ∧ dlookup "maproot_user" (nfs1_update_arg p paths e)
              = some .null))
      ∧ (∀ g, p.mapall_group = some g → p.maproot_group = none →
        e.mapall_group ≠ some g → e.maproot_group.isSome = true →
        (dlookup "mapall_group" (nfs2_update_arg p e) = some (.s g)
          ∧ dlookup "maproot_group" (nfs2_update_arg p e) = some .null)
        ∧ (dlookup "mapall_group" (nfs1_update_arg p paths e) = some (.s g)
          ∧ dlookup "maproot_group" (nfs1_update_arg p paths e)
              = some .null)) := by
  intro p e paths
  refine ⟨?_, ?_, ?_, ?_⟩
  · intro u hmu hma hne hsome
    have hbne : (e.maproot_user != some u) = true := bne_iff_ne.mpr hne
    simp only [nfs2_update_arg, nfs1_update_arg, nfs_maps_arg]
    rw [hma, hmu]
    refine ⟨⟨?_, ?_⟩, ?_, ?_⟩
    · rw [dlookup_optStage_ne (by decide), dlookup_optStage_ne (by decide),
        dlookup_mapStage_ne (by decide) (by decide), mapStage_none,
        dlookup_mapStage_ne (by decide) (by decide),
        dlookup_mapStage_self (by decide) hbne]
    · rw [dlookup_optStage_ne (by decide), dlookup_optStage_ne (by decide),
        dlookup_mapStage_ne (by decide) (by decide), mapStage_none,
        dlookup_mapStage_ne (by decide) (by decide),
        dlookup_mapStage_clear hbne hsome]
    · rw [dlookup_optStage_ne (by decide), dlookup_optStage_ne (by decide),
        dlookup_ite_dinsert_ne _ _ _ (by decide),
        dlookup_mapStage_ne (by decide) (by decide), mapStage_none,
        dlookup_mapStage_ne (by decide) (by decide),
        dlookup_mapStage_self (by decide) hbne]
    · rw [dlookup_optStage_ne (by decide), dlookup_optStage_ne (by decide),
        dlookup_ite_dinsert_ne _ _ _ (by decide),
        dlookup_mapStage_ne (by decide) (by decide), mapStage_none,
        dlookup_mapStage_ne (by decide) (by decide),
        dlookup_mapStage_clear hbne hsome]
  · intro g hmg hma hne hsome
    have hbne : (e.maproot_group != some g) = true := bne_iff_ne.mpr hne
    simp only [nfs2_update_arg, nfs1_update_arg, nfs_maps_arg]
    rw [hma, hmg]
    refine ⟨⟨?_, ?_⟩, ?_, ?_⟩
    · rw [dlookup_optStage_ne (by decide), dlookup_optStage_ne (by decide),
        mapStage_none, dlookup_mapStage_ne (by decide) (by decide),
        dlookup_mapStage_self (by decide) hbne]
    · rw [dlookup_optStage_ne (by decide), dlookup_optStage_ne (by decide),
        mapStage_none, dlookup_mapStage_ne (by decide) (by decide),
        dlookup_mapStage_clear hbne hsome]
    · rw [dlookup_optStage_ne (by decide), dlookup_optStage_ne (by decide),
        dlookup_ite_dinsert_ne _ _ _ (by decide), mapStage_none,
        dlookup_mapStage_ne (by decide) (by decide),
        dlookup_mapStage_self (by decide) hbne]
    · rw [dlookup_optStage_ne (by decide), dlookup_optStage_ne (by decide),
        dlookup_ite_dinsert_ne _ _ _ (by decide), mapStage_none,
        dlookup_mapStage_ne (by decide) (by decide),
        dlookup_mapStage_clear hbne hsome]
  · intro u hmu hma hne hsome
    have hbne : (e.mapall_user != some u) = true := bne_iff_ne.mpr hne
    simp only [nfs2_update_arg, nfs1_update_arg, nfs_maps_arg]
    rw [hma, hmu]
    refine ⟨⟨?_, ?_⟩, ?_, ?_⟩
    · rw [dlookup_optStage_ne (by decide), dlookup_optStage_ne (by decide),
        dlookup_mapStage_ne (by decide) (by decide),
        dlookup_mapStage_self (by decide) hbne]
    · rw [dlookup_optStage_ne (by decide), dlookup_optStage_ne (by decide),
        dlookup_mapStage_ne (by decide) (by decide),
        dlookup_mapStage_clear hbne hsome]
    · rw [dlookup_optStage_ne (by decide), dlookup_optStage_ne (by decide),
        dlookup_ite_dinsert_ne _ _ _ (by decide),
        dlookup_mapStage_ne (by decide) (by decide),
        dlookup_mapStage_self (by decide) hbne]
    · rw [dlookup_optStage_ne (by decide), dlookup_optStage_ne (by decide),
        dlookup_ite_dinsert_ne _ _ _ (by decide),
        dlookup_mapStage_ne (by decide) (by decide),
        dlookup_mapStage_clear hbne hsome]
  · intro g hmg hma hne hsome
    have hbne : (e.mapall_group != some g) = true := bne_iff_ne.mpr hne
    simp only [nfs2_update_arg, nfs1_update_arg, nfs_maps_arg]
    rw [hma, hmg]
    refine ⟨⟨?_, ?_⟩, ?_, ?_⟩
    · rw [dlookup_optStage_ne (by decide), dlookup_optStage_ne (by decide),
        dlookup_mapStage_self (by decide) hbne]
    · rw [dlookup_optStage_ne (by decide), dlookup_optStage_ne (by decide),
        dlookup_mapStage_clear hbne hsome]
    · rw [dlookup_optStage_ne (by decide), dlookup_optStage_ne (by decide),
        dlookup_ite_dinsert_ne _ _ _ (by decide),
        dlookup_mapStage_self (by decide) hbne]
    · rw [dlookup_optStage_ne (by decide), dlookup_optStage_ne (by decide),
        dlookup_ite_dinsert_ne _ _ _ (by decide),
        dlookup_mapStage_clear hbne hsome]

/-- Witness for C5: a concrete export where the caller sets
`maproot_user=alice`, the export currently maps all users to `bob`, and the
Diff both sets `maproot_user` and clears `mapall_user`. -/
theorem C5_mutual_exclusive_clearing_witness :
    dlookup "maproot_user"
        (nfs2_update_arg
          { name := none, path := "/mnt/tank/home", state := "present",
            alldirs := none, quiet := none, enabled := none,
            readonly := none, maproot_user := some "alice",
            maproot_group := none, mapall_user := none,
            mapall_group := none, networks := none, hosts := none }
          { id := 1, comment := "", alldirs := false, quiet := false,
            enabled := true, readonly := false, maproot_user := none,
            maproot_group := none, mapall_user := some "bob",
            mapall_group := none, networks := [], hosts := [],
            paths := ["/mnt/tank/home"] })
      = some (.s "alice")
    ∧ dlookup "mapall_user"
        (nfs2_update_arg
          { name := none, path := "/mnt/tank/home", state := "present",
            alldirs := none, quiet := none, enabled := none,
            readonly := none, maproot_user := some "alice",
            maproot_group := none, mapall_user := none,
            mapall_group := none, networks := none, hosts := none }
          { id := 1, comment := "", alldirs := false, quiet := false,
            enabled := true, readonly := false, maproot_user := none,
            maproot_group := none, mapall_user := some "bob",
            mapall_group := none, networks := [], hosts := [],
            paths := ["/mnt/tank/home"] })
      = some .null :=
  (C5_mutual_exclusive_clearing
    { name := none, path := "/mnt/tank/home", state := "present",
      alldirs := none, quiet := none, enabled := none,
      readonly := none, maproot_user := some "alice",
      maproot_group := none, mapall_user := none,
      mapall_group := none, networks := none, hosts := none }
    { id := 1, comment := "", alldirs := false, quiet := false,
      enabled := true, readonly := false, maproot_user := none,
      maproot_group := none, mapall_user := some "bob",
      mapall_group := none, networks := [], hosts := [],
      paths := ["/mnt/tank/home"] } []).1 "alice" rfl rfl (by decide) rfl
    |>.1

/-! ## Per-module lemmas: check mode issues no mutating call -/

theorem group_check_no_mutation (p : GroupParams) (q : Option GroupInfo) :
    ∀ c ∈ (group_run p true q).1, mutatingCall c = false := by
  intro c hc
  revert hc
  simp only [group_run]
  repeat' split
  all_goals intro hc
  all_goals simp only [List.mem_singleton, List.mem_cons, List.mem_append,
    List.not_mem_nil, or_false] at hc
  all_goals first
    | (exact absurd trivial (by assumption))
    | (subst hc; decide)
    | (rcases hc with rfl | rfl <;> decide)
    | (rcases hc with rfl | rfl | rfl | rfl <;> decide)
    | (rcases hc with (rfl | rfl) | rfl <;> decide)
    | (rcases hc with ((rfl | rfl) | rfl) | rfl <;> decide)
    | simp_all

theorem nfs2_check_no_mutation (p : NfsParams) (e : Option ExportInfo) :
    ∀ c ∈ (nfs2_run p true e).1, mutatingCall c = false := by
  intro c hc
  revert hc
  simp only [nfs2_run]
  repeat' split
  all_goals intro hc
  all_goals simp only [List.mem_singleton, List.mem_cons, List.mem_append,
    List.not_mem_nil, or_false] at hc
  all_goals first
    | (exact absurd trivial (by assumption))
    | (subst hc; decide)
    | (rcases hc with rfl | rfl <;> decide)
    | (rcases hc with rfl | rfl | rfl | rfl <;> decide)
    | (rcases hc with (rfl | rfl) | rfl <;> decide)
    | (rcases hc with ((rfl | rfl) | rfl) | rfl <;> decide)
    | simp_all

theorem certificate_check_no_mutation (p : CertParams)
    (ci : Option CertInfo) :
    ∀ c ∈ (certificate_run p true ci).1, mutatingCall c = false := by
  intro c hc
  revert hc
  simp only [certificate_run]
  repeat' split
  all_goals intro hc
  all_goals simp only [List.mem_singleton, List.mem_cons, List.mem_append,
    List.not_mem_nil, or_false] at hc
  all_goals first
    | (exact absurd trivial (by assumption))
    | (subst hc; decide)
    | (rcases hc with rfl | rfl <;> decide)
    | (rcases hc with rfl | rfl | rfl | rfl <;> decide)
    | (rcases hc with (rfl | rfl) | rfl <;> decide)
    | (rcases hc with ((rfl | rfl) | rfl) | rfl <;> decide)
    | simp_all

theorem filesystem_check_no_mutation (p : FsParams) (ds : Option DsInfo) :
    ∀ c ∈ (filesystem_run p true ds).1, mutatingCall c = false := by
  intro c hc
  revert hc
  simp only [filesystem_run]
  repeat' split
  all_goals intro hc
  all_goals simp only [List.mem_singleton, List.mem_cons, List.mem_append,
    List.not_mem_nil, or_false] at hc
  all_goals first
    | (exact absurd trivial (by assumption))
    | (subst hc; decide)
    | (rcases hc with rfl | rfl <;> decide)
    | (rcases hc with rfl | rfl | rfl | rfl <;> decide)
    | (rcases hc with (rfl | rfl) | rfl <;> decide)
    | (rcases hc with ((rfl | rfl) | rfl) | rfl <;> decide)
    | simp_all

theorem jail_fstab_check_no_mutation (jail : String)
    (fstab : List FsDesired) (append : Bool) (iocroot : String)
    (jstate : Option String) (fi : List (FsEntry × String)) :
    ∀ c ∈ (jail_fstab_run jail fstab append true iocroot jstate fi).1,
      mutatingCall c = false := by
  intro c hc
  revert hc
  simp only [jail_fstab_run]
  repeat' split
  all_goals intro hc
  all_goals simp only [List.mem_singleton, List.mem_cons, List.mem_append,
    List.not_mem_nil, or_false] at hc
  all_goals first
    | (exact absurd trivial (by assumption))
    | (subst hc; decide)
    | (rcases hc with rfl | rfl <;> decide)
    | (rcases hc with rfl | rfl | rfl | rfl <;> decide)
    | (rcases hc with (rfl | rfl) | rfl <;> decide)
    | (rcases hc with ((rfl | rfl) | rfl) | rfl <;> decide)
    | simp_all

/-! ## Claim C10 -/

/-- Claim C10: with check mode enabled, none of the embedded modules (group,
NFS sharing, certificate, filesystem, jail fstab) ever issues a mutating
middleware call — only query/lookup calls reach the transport.  However, the
claim's further promise that "the report instead carries a message
describing what would have been done" fails for jail_fstab: on the C3
scenario in check mode the module raises `KeyError: 'fields'` in the change
loop before `exit_json`, so no report is produced at all (final conjunct,
evaluated at that failing input). -/
theorem C10_check_mode_no_mutation :
    (∀ (p : GroupParams) (q : Option GroupInfo),
        ∀ c ∈ (group_run p true q).1, mutatingCall c = false)
    ∧ (∀ (p : NfsParams) (e : Option ExportInfo),
        ∀ c ∈ (nfs2_run p true e).1, mutatingCall c = false)
    ∧ (∀ (p : CertParams) (ci : Option CertInfo),
        ∀ c ∈ (certificate_run p true ci).1, mutatingCall c = false)
    ∧ (∀ (p : FsParams) (ds : Option DsInfo),
        ∀ c ∈ (filesystem_run p true ds).1, mutatingCall c = false)
    ∧ (∀ (jail : String) (fstab : List FsDesired) (append : Bool)
        (iocroot : String) (jstate : Option String)
        (fi : List (FsEntry × String)),
        ∀ c ∈ (jail_fstab_run jail fstab append true iocroot jstate fi).1,
          mutatingCall c = false)
    ∧ jail_fstab_run "j1" fstabAbsentData false true "/mnt/tank/iocage"
        (some "up") fstabObserved
      = ([callOf "jail.get_iocroot", callOf "jail.query",
          callOf "jail.fstab"],
         .pyError "KeyError: fields") :=
  ⟨group_check_no_mutation, nfs2_check_no_mutation,
   certificate_check_no_mutation, filesystem_check_no_mutation,
   jail_fstab_check_no_mutation, rfl⟩

/-- Witness for C10 at a concrete check-mode run: deleting a dataset in
check mode issues only the initial query. -/
theorem C10_check_mode_no_mutation_witness :
    mutatingCall (callOf "pool.dataset.query") = false :=
  C10_check_mode_no_mutation.2.2.2.1 volParams (some volDs)
    (callOf "pool.dataset.query") (by decide)

/-! ## Claim C6 -/

/-- Claim C6 counterexample: in user.py's deprecated old-style sudo call path
(old middleware sudo API with the `sudo` option supplied), `sudo_commands`
is compared by plain list equality, so the desired list `["a","b"]` — a
permutation of the observed `["b","a"]` — produces a non-empty Diff for that
field alone, contradicting the claim for "every list-typed field". -/
theorem C6_counterexample :
    (["a", "b"] : List String).Perm ["b", "a"]
    ∧ user_sudo_update_args true (some true) none (some ["a", "b"]) none
        uiSudoBA
      = [("sudo_commands", .strs ["a", "b"])] :=
  ⟨List.Perm.swap "b" "a" [], rfl⟩

/-- Claim C6 amended: reordering alone never produces a Diff entry for
`hosts` and `networks` (both NFS dialects), for group memberships, and for
the sudo command lists under the new middleware sudo API; the exception
forced by the counterexample is the deprecated old-style sudo call path,
where `sudo_commands` is compared by list equality. -/
theorem C6_amended_permutation_invariance :
    (∀ (p : NfsParams) (e : ExportInfo) (hs : List String),
        p.hosts = some hs → hs.Perm e.hosts →
        "hosts" ∉ dkeys (nfs2_update_arg p e))
    ∧ (∀ (p : NfsParams) (e : ExportInfo) (ns : List String),
        p.networks = some ns → ns.Perm e.networks →
        "networks" ∉ dkeys (nfs2_update_arg p e))
    ∧ (∀ (p : NfsParams) (paths : List String) (e : ExportInfo)
        (hs : List String),
        p.hosts = some hs → hs.Perm e.hosts →
        "hosts" ∉ dkeys (nfs1_update_arg p paths e))
    ∧ (∀ (p : NfsParams) (paths : List String) (e : ExportInfo)
        (ns : List String),
        p.networks = some ns → ns.Perm e.networks →
        "networks" ∉ dkeys (nfs1_update_arg p paths e))
    ∧ (∀ (gs : List String) (append : Bool) (ids : List Int)
        (ui : UserInfo),
        ids.Perm ui.groups →
        user_groups_update_arg (some gs) append ids ui = [])
    ∧ (∀ (sc : List String) (scn : Option (List String)) (ui : UserInfo),
        sc.Perm ui.sudo_commands →
        "sudo_commands" ∉
          dkeys (user_sudo_update_args false none none (some sc) scn ui))
    ∧ (∀ (sc : Option (List String)) (scn : List String) (ui : UserInfo),
        scn.Perm ui.sudo_commands_nopasswd →
        "sudo_commands_nopasswd" ∉
          dkeys (user_sudo_update_args false none none sc (some scn) ui))
    := by
  refine ⟨?_, ?_, ?_, ?_, ?_, ?_, ?_⟩
  · intro p e hs hp hperm
    have hset : pySetEq hs e.hosts = true := pySetEq_of_perm hperm
    simp only [nfs2_update_arg, nfs_maps_arg]
    rw [optStage_eq_of_same hp (by simp [hset])]
    apply not_mem_dkeys_optStage (by decide)
    apply not_mem_dkeys_mapStage (by decide) (by decide)
    apply not_mem_dkeys_mapStage (by decide) (by decide)
    apply not_mem_dkeys_mapStage (by decide) (by decide)
    apply not_mem_dkeys_mapStage (by decide) (by decide)
    apply not_mem_dkeys_optStage (by decide)
    apply not_mem_dkeys_optStage (by decide)
    apply not_mem_dkeys_optStage (by decide)
    apply not_mem_dkeys_optStage (by decide)
    apply not_mem_dkeys_optStage (by decide)
    simp [dkeys]
  · intro p e ns hp hperm
    have hset : pySetEq ns e.networks = true := pySetEq_of_perm hperm
    simp only [nfs2_update_arg, nfs_maps_arg]
    apply not_mem_dkeys_optStage (by decide)
    rw [optStage_eq_of_same hp (by simp [hset])]
    apply not_mem_dkeys_mapStage (by decide) (by decide)
    apply not_mem_dkeys_mapStage (by decide) (by decide)
    apply not_mem_dkeys_mapStage (by decide) (by decide)
    apply not_mem_dkeys_mapStage (by decide) (by decide)
    apply not_mem_dkeys_optStage (by decide)
    apply not_mem_dkeys_optStage (by decide)
    apply not_mem_dkeys_optStage (by decide)
    apply not_mem_dkeys_optStage (by decide)
    apply not_mem_dkeys_optStage (by decide)
    simp [dkeys]
  · intro p paths e hs hp hperm
    have hset : pySetEq hs e.hosts = true := pySetEq_of_perm hperm
    simp only [nfs1_update_arg, nfs_maps_arg]
    rw [optStage_eq_of_same hp (by simp [hset])]
    apply not_mem_dkeys_optStage (by decide)
    apply not_mem_dkeys_ite_dinsert _ _ _ (by decide)
    apply not_mem_dkeys_mapStage (by decide) (by decide)
    apply not_mem_dkeys_mapStage (by decide) (by decide)
    apply not_mem_dkeys_mapStage (by decide) (by decide)
    apply not_mem_dkeys_mapStage (by decide) (by decide)
    apply not_mem_dkeys_optStage (by decide)
    apply not_mem_dkeys_optStage (by decide)
    apply not_mem_dkeys_optStage (by decide)
    apply not_mem_dkeys_optStage (by decide)
    simp [dkeys]
  · intro p paths e ns hp hperm
    have hset : pySetEq ns e.networks = true := pySetEq_of_perm hperm
    simp only [nfs1_update_arg, nfs_maps_arg]
    apply not_mem_dkeys_optStage (by decide)
    rw [optStage_eq_of_same hp (by simp [hset])]
    apply not_mem_dkeys_ite_dinsert _ _ _ (by decide)
    apply not_mem_dkeys_mapStage (by decide) (by decide)
    apply not_mem_dkeys_mapStage (by decide) (by decide)
    apply not_mem_dkeys_mapStage (by decide) (by decide)
    apply not_mem_dkeys_mapStage (by decide) (by decide)
    apply not_mem_dkeys_optStage (by decide)
    apply not_mem_dkeys_optStage (by decide)
    apply not_mem_dkeys_optStage (by decide)
    apply not_mem_dkeys_optStage (by decide)
    simp [dkeys]
  · intro gs append ids ui hperm
    have hset : pySetEqInt (if append then (ids.dedup ++ ui.groups).dedup
        else ids.dedup) ui.groups = true := by
      apply pySetEqInt_iff.mpr
      constructor
      · intro x hx
        by_cases ha : append
        · rw [if_pos ha] at hx
          rcases List.mem_append.mp (List.mem_dedup.mp hx) with h | h
          · exact hperm.mem_iff.mp (List.mem_dedup.mp h)
          · exact h
        · rw [if_neg ha] at hx
          exact hperm.mem_iff.mp (List.mem_dedup.mp hx)
      · intro x hx
        by_cases ha : append
        · rw [if_pos ha]
          exact List.mem_dedup.mpr (List.mem_append.mpr (Or.inr hx))
        · rw [if_neg ha]
          exact List.mem_dedup.mpr (hperm.mem_iff.mpr hx)
    simp only [user_groups_update_arg, hset]
    simp
  · intro sc scn ui hperm
    have hset : pySetEq ui.sudo_commands sc = true :=
      pySetEq_of_perm hperm.symm
    simp only [user_sudo_update_args, old_sudo_call, Option.isSome_none,
      Bool.false_and, Bool.or_self, Bool.false_eq_true, if_false, hset,
      Bool.not_true]
    split
    · exact not_mem_dkeys_ite_dinsert _ _ _ (by decide) (by simp [dkeys])
    · simp [dkeys]
  · intro sc scn ui hperm
    have hset : pySetEq ui.sudo_commands_nopasswd scn = true :=
      pySetEq_of_perm hperm.symm
    simp only [user_sudo_update_args, old_sudo_call, Option.isSome_none,
      Bool.false_and, Bool.or_self, Bool.false_eq_true, if_false, hset,
      Bool.not_true]
    split
    · exact not_mem_dkeys_ite_dinsert _ _ _ (by decide) (by simp [dkeys])
    · simp [dkeys]

/-- Witness for the C6 amended theorem: a concrete export whose desired
hosts list is a reordering of the observed one contributes no `hosts` entry
to the Diff. -/
theorem C6_amended_permutation_invariance_witness :
    "hosts" ∉ dkeys (nfs2_update_arg
      { name := none, path := "/mnt/tank/home", state := "present",
        alldirs := none, quiet := none, enabled := none, readonly := none,
        maproot_user := none, maproot_group := none, mapall_user := none,
        mapall_group := none, networks := none,
        hosts := some ["h1", "h2"] }
      { id := 1, comment := "", alldirs := false, quiet := false,
        enabled := true, readonly := false, maproot_user := none,
        maproot_group := none, mapall_user := none, mapall_group := none,
        networks := [], hosts := ["h2", "h1"],
        paths := ["/mnt/tank/home"] }) :=
  C6_amended_permutation_invariance.1
    { name := none, path := "/mnt/tank/home", state := "present",
      alldirs := none, quiet := none, enabled := none, readonly := none,
      maproot_user := none, maproot_group := none, mapall_user := none,
      mapall_group := none, networks := none,
      hosts := some ["h1", "h2"] }
    { id := 1, comment := "", alldirs := false, quiet := false,
      enabled := true, readonly := false, maproot_user := none,
      maproot_group := none, mapall_user := none, mapall_group := none,
      networks := [], hosts := ["h2", "h1"],
      paths := ["/mnt/tank/home"] }
    ["h1", "h2"] rfl (List.Perm.swap "h2" "h1" [])

/-! ## Claim C3 -/

/-- Claim C3: the spec says that a jail_fstab invocation (not in check mode)
with one desired entry `state=absent` at a mount point present in the
observed fstab, on a running jail, stops the jail, issues exactly one REMOVE
mutation against the fstab, restarts the jail, and reports `changed=true`.
Evaluating the embedded module at exactly that input shows what the code
actually does: it stops the jail, then raises `KeyError: 'fields'` in the
change-application loop — before any `jail.fstab` mutation call (the single
`jail.fstab` element of the trace is the initial LIST query), without
restarting the jail, and without reporting `changed=true`. -/
theorem C3_jail_fstab_remove_eval :
    jail_fstab_run "j1" fstabAbsentData false false "/mnt/tank/iocage"
        (some "up") fstabObserved
      = ([callOf "jail.get_iocroot", callOf "jail.query",
          callOf "jail.fstab", jobOf "jail.stop"],
         .pyError "KeyError: fields") := rfl

/-! ## Claim C8 -/

/-- Claim C8: the spec says the version resolver parses the composite version
string via a pattern match, falls back to the raw string when the pattern
does not match, and in every case returns a name/type/version record.  The
code instead applies `re.match` to the **list** produced by
`.split("-", 1)`, so `get_tn_version` raises `TypeError` on every daemon
response — here evaluated at the well-formed response `TrueNAS-13.0-U5`
(on which the regex itself, applied to the string, would have matched). -/
theorem C8_get_tn_version_eval :
    get_tn_version
        { product_type_resp := "CORE", version_resp := "TrueNAS-13.0-U5",
          product_name_resp := "TrueNAS" }
      = ([callOf "system.product_type", callOf "system.version",
          callOf "system.product_name"],
         .error "TypeError: expected string or bytes-like object")
    ∧ reMatchVersion "TrueNAS-13.0-U5" = some ("TrueNAS", none, "13.0-U5") :=
  ⟨rfl, rfl⟩

/-! ## Claim C9 -/

/-- Claim C9: the middleware facade reads the `middleware_method` flag with
stable default `midclt`; `midclt` selects the command-line transport,
`client` the persistent-connection transport, and any other value fails with
a configuration error (raised by `_pick_method`, before any call or job is
forwarded). -/
theorem C9_pick_method_selection :
    pick_method none = .ok .midclt
    ∧ pick_method (some "midclt") = .ok .midclt
    ∧ pick_method (some "client") = .ok .client
    ∧ ∀ s : String, s ≠ "midclt" → s ≠ "client" →
        pick_method (some s) = .error s!"Unknown middleware method {s}" := by
  refine ⟨rfl, rfl, rfl, ?_⟩
  intro s h1 h2
  unfold pick_method
  have b1 : (s == "midclt") = false := by
    cases hbe : (s == "midclt") with
    | false => rfl
    | true => exact absurd (beq_iff_eq.mp hbe) h1
  have b2 : (s == "client") = false := by
    cases hbe : (s == "client") with
    | false => rfl
    | true => exact absurd (beq_iff_eq.mp hbe) h2
  simp [b1, b2]

/-- Witness for C9 at a concrete illegal transport name. -/
theorem C9_pick_method_selection_witness :
    pick_method (some "rest") = .error "Unknown middleware method rest" := by
  have h := C9_pick_method_selection.2.2.2 "rest" (by decide) (by decide)
  simpa using h

/-! ## Claim C7 -/

/-- Claim C7 counterexample: under the facade's default transport selection
(`midclt`), invoking a nonexistent remote method makes the `midclt`
subprocess exit nonzero, and `Midclt.call` surfaces that as a *generic*
`Exception` — not as the distinct `MethodNotFoundError` the claim asserts
for every transport. -/
theorem C7_counterexample :
    pick_method none = .ok .midclt
    ∧ Midclt.call (fun _ => none)
        (.err 1 "[ENOMETHOD] Method user.nonexistent not found") "json"
      = .error (.generic "midclt exited with status 1")
    ∧ (TransportError.generic "midclt exited with status 1").isMethodNotFound
        = false :=
  ⟨rfl, rfl, rfl⟩

/-- Claim C7 amended: only the persistent-connection transport
(`MiddlewareClient`) raises the distinct `MethodNotFoundError` — carrying the
method name and detail — when the invoked remote method does not exist, and
it never does so for other failures; the `midclt` transport never produces a
`MethodNotFoundError` at all (a missing method surfaces as a generic
transport failure). -/
theorem C7_amended_method_not_found :
    (∀ func detail, MiddlewareClient.call func (.methodNotFound detail)
        = .error (.methodNotFound ⟨func, detail⟩))
    ∧ (∀ func detail e,
        MiddlewareClient.call func (.failure detail) = .error e →
        e.isMethodNotFound = false)
    ∧ (∀ parse sub output e, Midclt.call parse sub output = .error e →
        e.isMethodNotFound = false) := by
  refine ⟨fun func detail => rfl, ?_, ?_⟩
  · intro func detail e he
    cases he
    rfl
  · intro parse sub output e he
    cases sub with
    | err rc out =>
        simp only [Midclt.call] at he
        cases he
        rfl
    | ok out =>
        simp only [Midclt.call] at he
        by_cases h1 : (output == "str") = true
        · simp [h1] at he
        · simp only [h1, Bool.false_eq_true, if_false] at he
          by_cases h2 : (output == "json") = true
          · simp only [h2, if_true] at he
            cases hp : Midclt.to_json parse out with
            | none => rw [hp] at he; cases he; rfl
            | some v => rw [hp] at he; cases he
          · simp only [h2, Bool.false_eq_true, if_false] at he
            cases he
            rfl

/-- Witness for the C7 amended theorem at concrete inputs. -/
theorem C7_amended_method_not_found_witness :
    MiddlewareClient.call "sharing.nfs.query" (.methodNotFound "no method")
      = .error (.methodNotFound ⟨"sharing.nfs.query", "no method"⟩)
    ∧ (TransportError.generic "midclt exited with status 1").isMethodNotFound
        = false :=
  ⟨C7_amended_method_not_found.1 "sharing.nfs.query" "no method",
   C7_amended_method_not_found.2.2 (fun _ => none) (.err 1 "boom") "json"
     (.generic "midclt exited with status 1") rfl⟩

end TrueNAS
